import Mathlib

/-!
# Hue Lights Manager: bridge location, session provisioning, light control, menu loop

A shallow embedding of `src/index.js`.  Every `async function` of the source is a
total function from the state of the process to a completion (returned, threw, or
suspended on console input for ever) and a successor state.  The state carries the
trace of everything the process has done to the outside, in order.  Calls into the
wrapped client library (`node-hue-api`) are answered by a `World`, whose every answer
may depend on the whole trace so far, so that the bridge and the discovery service are
free to answer differently on each call.  The append to `.env` may fail too: the world
decides, and a failed append leaves the file as it was.  The operator is the list of
lines still to be typed: each `rl.question` takes one, and a question asked when none
is left never resolves.  Console writes are taken to succeed.

Values that JavaScript tests for truthiness (`BRIDGE_IP`, `USERNAME`, the results of
`discoverBridge` and `createUser`) are `Option String`: `none` is `null` or
`undefined`, and the empty string is falsy.
-/

namespace HueLights

/-! ## Values -/

/-- A JavaScript number as this program meets it: `NaN`, an infinity, or a double
whose value is an integer, kept as that integer (`-0` and `0` are both `int 0`: they
are equal under `===` and print alike). -/
inductive JsNum where
  | nan
  | infinity (negative : Bool)
  | int (n : Int)
  deriving DecidableEq

/-- The operator `===` on numbers: `NaN` equals nothing, itself included. -/
def JsNum.strictEq : JsNum → JsNum → Bool
  | .int a, .int b => a == b
  | .infinity a, .infinity b => a == b
  | _, _ => false

def bitLengthAux : Nat → Nat → Nat
  | 0, _ => 0
  | fuel + 1, m => if m = 0 then 0 else bitLengthAux fuel (m / 2) + 1

/-- The number of binary digits of `m`. -/
def bitLength (m : Nat) : Nat := bitLengthAux m m

/-- The double nearest to the natural number `m` (53 significant bits, ties to even),
or `none` when that is `Infinity`. -/
def roundToDouble (m : Nat) : Option Nat :=
  if bitLength m ≤ 53 then some m
  else
    let shift := bitLength m - 53
    let q := m / 2 ^ shift
    let r := m % 2 ^ shift
    let half := 2 ^ (shift - 1)
    let q1 := if half < r ∨ (r = half ∧ q % 2 = 1) then q + 1 else q
    if 2 ^ 1024 ≤ q1 * 2 ^ shift then none else some (q1 * 2 ^ shift)

def decimalLength (m : Nat) : Nat := (Nat.toDigits 10 m).length

/-- The multiple of `10 ^ (decimalLength x - k)` next to `x` whose nearest double is
`x`, if there is one: the nearer of the two neighbours, the even one on a tie. -/
def shortestAt (x : Nat) (k : Nat) : Option Nat :=
  let unit := 10 ^ (decimalLength x - k)
  let lo := x / unit * unit
  let hi := lo + unit
  let okLo := roundToDouble lo = some x
  let okHi := roundToDouble hi = some x
  if okLo ∧ okHi then
    if x - lo < hi - x then some lo
    else if hi - x < x - lo then some hi
    else if (lo / unit) % 2 = 0 then some lo else some hi
  else if okLo then some lo
  else if okHi then some hi
  else none

/-- The number with the fewest significant decimal digits whose nearest double is `x`
(`Number::toString`, ECMA-262); `x` itself when no shorter one exists. -/
def shortestDecimal (x : Nat) : Nat :=
  (((List.range (decimalLength x)).drop 1).findSome? (shortestAt x)).getD x

def stripZeros (ds : List Char) : List Char :=
  (ds.reverse.dropWhile (fun c => c = '0')).reverse

/-- The form `d.ddde+n` that `Number::toString` gives from `1e21` on. -/
def exponentForm (v : Nat) : String :=
  match stripZeros (Nat.toDigits 10 v) with
  | [] => "0"
  | [d] => String.mk [d] ++ "e+" ++ toString (decimalLength v - 1)
  | d :: rest => String.mk (d :: '.' :: rest) ++ "e+" ++ toString (decimalLength v - 1)

def natToStr (x : Nat) : String :=
  if shortestDecimal x < 10 ^ 21 then toString (shortestDecimal x)
  else exponentForm (shortestDecimal x)

/-- Rendering in a template literal (`Number::toString`, radix 10). -/
def JsNum.toStr : JsNum → String
  | .nan => "NaN"
  | .infinity false => "Infinity"
  | .infinity true => "-Infinity"
  | .int n => if n < 0 then "-" ++ natToStr n.natAbs else natToStr n.natAbs

/-- An error value that reaches a `catch`.  `api` is the client library's `ApiError`,
which has the method `getHueErrorType()`; `plain` is an `Error` carrying only a
message (what `new Error(..)` builds, and what a network failure rejects with);
`typeError` is the `TypeError` the runtime raises when a missing method is called. -/
inductive JsError where
  | api (hueErrorType : Int) (message : String)
  | plain (message : String)
  | typeError (message : String)
  deriving DecidableEq

/-- The property `err.message`. -/
def JsError.message : JsError → String
  | .api _ m => m
  | .plain m => m
  | .typeError m => m

/-- The call `err.getHueErrorType()`: `none` when the object has no such method. -/
def JsError.getHueErrorType : JsError → Option Int
  | .api t _ => some t
  | .plain _ => none
  | .typeError _ => none

/-- The handle `v3.api.createLocal(bridgeIp).connect(username)` resolves to: the
pairing of the bridge address with the credential it was opened with
(`none` for the unauthenticated handle of `connect()`). -/
structure Api where
  bridgeIp : String
  username : Option String
  deriving DecidableEq

/-- One entry of the discovery result set. -/
structure DiscoveryResult where
  ipaddress : String
  deriving DecidableEq

/-- The object `users.createUser` resolves to. -/
structure CreatedUser where
  username : String
  deriving DecidableEq

/-- A light as the bridge lists it. -/
structure Light where
  id : JsNum
  name : String
  on_ : Bool
  hue : Option Nat
  deriving DecidableEq

/-- The values built with `new LightState()`: `.on().brightness(100)` and `.off()`. -/
structure LightState where
  on_ : Bool
  brightness : Option Nat
  deriving DecidableEq

/-- What the process does to the outside.  `connect ip username` is
`v3.api.createLocal(ip).connect(username)`; `call fn` marks the entry into a function
of the program, and is recorded for `createUser`. -/
inductive Effect where
  | nupnpSearch
  | connect (bridgeIp : String) (username : Option String)
  | usersCreateUser (api : Api) (appName deviceName : String)
  | getAll (api : Api)
  | setLightState (api : Api) (lightId : JsNum) (state : LightState)
  | appendFileSync (path text : String)
  | consoleLog (text : String)
  | consoleWarn (text : String)
  | consoleError (text : String)
  | consoleClear
  | question (prompt : String)
  | rlClose
  | call (fn : String)
  deriving DecidableEq

/-- The process: the module variable `USERNAME`, the contents of `.env`, the lines the
operator will still type, and the effects so far. -/
structure State where
  USERNAME : Option String
  dotenv : String
  stdin : List String
  trace : List Effect
  deriving DecidableEq

/-- The outside: the constant `BRIDGE_IP` read from the environment, the answers of the
client library, and the outcome of `fs.appendFileSync`, each a function of the effect
history before the call. -/
structure World where
  BRIDGE_IP : Option String
  nupnpSearch : List Effect → Except JsError (List DiscoveryResult)
  connect : List Effect → String → Option String → Except JsError Unit
  usersCreateUser : List Effect → Api → String → String → Except JsError CreatedUser
  appendFileSync : List Effect → String → String → Except JsError Unit
  getAll : List Effect → Api → Except JsError (List Light)
  setLightState : List Effect → Api → JsNum → LightState → Except JsError Unit

/-- How an awaited call ends: with a value, with a thrown error, or never (it waits
for a line of console input that does not come). -/
inductive Completion (α : Type) where
  | returned (value : α)
  | threw (err : JsError)
  | pending
  deriving DecidableEq

/-- Truthiness of a value that is a string, `null` or `undefined`: the value itself
when it is a non-empty string. -/
def truthyStr : Option String → Option String
  | some v => if v = "" then none else some v
  | none => none

def emit (e : Effect) (s : State) : State :=
  { s with trace := s.trace ++ [e] }

/-- The effects performed between two states of one run. -/
def effects (s s' : State) : List Effect :=
  s'.trace.drop s.trace.length

def appName : String := "hue-lights-app"

def deviceName : String := "my-hue-device"

def registerWarning : String :=
  "Failed to connect with existing username, creating a new user..."

def pressAnyKey : String := "\nPress any key to continue..."

def linkButtonMessage : String :=
  "The Link button on the bridge was not pressed. Please press the Link button and try again."

/-! ## The functions of `src/index.js` -/

/-- Lines 15-21: one `rl.question`, resolved by the next line of input. -/
def waitForKeyPress (s : State) : Completion Unit × State :=
  let s1 := emit (.question pressAnyKey) s
  match s1.stdin with
  | [] => (.pending, s1)
  | _ :: rest => (.returned (), { s1 with stdin := rest })

/-- Lines 23-31. -/
def discoverBridge (w : World) (s : State) : Completion (Option String) × State :=
  let s1 := emit .nupnpSearch s
  match w.nupnpSearch s.trace with
  | .error err => (.threw err, s1)
  | .ok discoveryResults =>
    match discoveryResults with
    | [] => (.returned none, emit (.consoleError "Failed to resolve any Hue Bridges") s1)
    | first :: _ => (.returned (some first.ipaddress), s1)

/-- The expression `BRIDGE_IP || await discoverBridge()` of lines 34 and 67. -/
def locateBridge (w : World) (s : State) : Completion (Option String) × State :=
  match truthyStr w.BRIDGE_IP with
  | some ip => (.returned (some ip), s)
  | none => discoverBridge w s

/-- Lines 52-56: the link-button branch of the `catch` in `createUser`. -/
def printLinkButtonError (s : State) : State :=
  emit (.consoleError linkButtonMessage)
    (emit (.consoleLog "╰─────────────────────╯")
      (emit (.consoleLog "│        ERROR        │")
        (emit (.consoleLog "╭─────────────────────╮")
          (emit .consoleClear s))))

/-- Lines 50-62: the `catch` block of `createUser` and the `return null` after it. -/
def createUserCatch (err : JsError) (s : State) : Completion (Option String) × State :=
  match err.getHueErrorType with
  | none => (.threw (.typeError "err.getHueErrorType is not a function"), s)
  | some t =>
    let s1 :=
      if t = 101 then printLinkButtonError s
      else emit (.consoleError ("Unexpected error creating user: " ++ err.message)) s
    match waitForKeyPress s1 with
    | (.returned _, s2) => (.returned none, s2)
    | (.threw e, s2) => (.threw e, s2)
    | (.pending, s2) => (.pending, s2)

/-- Lines 33-63. -/
def createUser (w : World) (s : State) : Completion (Option String) × State :=
  let s0 := emit (.call "createUser") s
  match locateBridge w s0 with
  | (.threw e, s1) => (.threw e, s1)
  | (.pending, s1) => (.pending, s1)
  | (.returned v, s1) =>
    match truthyStr v with
    | none => (.threw (.plain "Could not find a Hue Bridge"), s1)
    | some bridgeIp =>
      let s2 := emit (.connect bridgeIp none) s1
      match w.connect s1.trace bridgeIp none with
      | .error e => (.threw e, s2)
      | .ok _ =>
        let unauthenticatedApi : Api := ⟨bridgeIp, none⟩
        let s3 := emit (.usersCreateUser unauthenticatedApi appName deviceName) s2
        match w.usersCreateUser s2.trace unauthenticatedApi appName deviceName with
        | .ok createdUser =>
          let s4 := emit (.consoleLog ("Created user: " ++ createdUser.username)) s3
          let s5 := emit (.appendFileSync ".env" ("\nHUE_USERNAME=" ++ createdUser.username)) s4
          match w.appendFileSync s4.trace ".env" ("\nHUE_USERNAME=" ++ createdUser.username) with
          | .ok _ =>
            (.returned (some createdUser.username),
              { s5 with dotenv := s5.dotenv ++ ("\nHUE_USERNAME=" ++ createdUser.username),
                        USERNAME := some createdUser.username })
          | .error err => createUserCatch err s5
        | .error err => createUserCatch err s3

/-- Lines 74-79: the `try` block of `connectToBridge`. -/
def tryReuse (w : World) (bridgeIp : String) (username : Option String) (s : State) :
    Except JsError Api × State :=
  match truthyStr username with
  | some u =>
    match w.connect s.trace bridgeIp (some u) with
    | .ok _ => (.ok ⟨bridgeIp, some u⟩, emit (.connect bridgeIp (some u)) s)
    | .error e => (.error e, emit (.connect bridgeIp (some u)) s)
  | none => (.error (.plain "Username not found in .env"), s)

/-- Lines 80-88: the `catch` block of `connectToBridge`. -/
def connectCatch (w : World) (bridgeIp : String) (s : State) : Completion Api × State :=
  let s1 := emit (.consoleWarn registerWarning) s
  match createUser w s1 with
  | (.threw e, s2) => (.threw e, s2)
  | (.pending, s2) => (.pending, s2)
  | (.returned username, s2) =>
    match truthyStr username with
    | some u =>
      match w.connect s2.trace bridgeIp (some u) with
      | .ok _ => (.returned ⟨bridgeIp, some u⟩, emit (.connect bridgeIp (some u)) s2)
      | .error e => (.threw e, emit (.connect bridgeIp (some u)) s2)
    | none => (.threw (.plain "Could not create a new Hue Bridge user"), s2)

/-- Lines 65-91. -/
def connectToBridge (w : World) (s : State) : Completion Api × State :=
  let username := s.USERNAME
  match locateBridge w s with
  | (.threw e, s1) => (.threw e, s1)
  | (.pending, s1) => (.pending, s1)
  | (.returned v, s1) =>
    match truthyStr v with
    | none => (.threw (.plain "Could not find a Hue Bridge"), s1)
    | some bridgeIp =>
      match tryReuse w bridgeIp username s1 with
      | (.ok apiInstance, s2) => (.returned apiInstance, s2)
      | (.error _, s2) => connectCatch w bridgeIp s2

/-- The property `length` of a string: its number of UTF-16 code units. -/
def utf16Length (str : String) : Nat :=
  (str.data.map (fun c => if c.toNat < 0x10000 then 1 else 2)).sum

/-- The method `String.prototype.padEnd` with the default filler. -/
def padEnd (str : String) (n : Nat) : String :=
  str ++ String.mk (List.replicate (n - utf16Length str) ' ')

/-- The rendering `String(light.state.hue)`. -/
def hueStr : Option Nat → String
  | some h => toString h
  | none => "undefined"

/-- Line 98: one row of the table. -/
def lightRow (light : Light) : String :=
  "│  " ++ light.id.toStr ++ "   │ " ++ padEnd light.name 12 ++ " │ "
    ++ padEnd (toString light.on_) 9 ++ " │ " ++ padEnd (hueStr light.hue) 5 ++ " │"

def tableHead : String :=
  "╭──────┬──────────────┬───────────┬───────╮\n│  ID  │     Name     │   Status  │  Hue  │\n├──────┼──────────────┼───────────┼───────┤"

def tableFoot : String := "╰──────┴──────────────┴───────────┴───────╯"

/-- Lines 93-102. -/
def listAllLights (w : World) (s : State) : Completion Unit × State :=
  match connectToBridge w s with
  | (.threw e, s1) => (.threw e, s1)
  | (.pending, s1) => (.pending, s1)
  | (.returned api, s1) =>
    let s2 := emit (.getAll api) s1
    match w.getAll s1.trace api with
    | .error e => (.threw e, s2)
    | .ok lights =>
      let s3 := emit (.consoleLog tableHead) s2
      let s4 := lights.foldl (fun st light => emit (.consoleLog (lightRow light)) st) s3
      waitForKeyPress (emit (.consoleLog tableFoot) s4)

/-- Lines 104-119. -/
def turnOnLight (w : World) (lightId : JsNum) (s : State) : Completion Unit × State :=
  match connectToBridge w s with
  | (.threw e, s1) => (.threw e, s1)
  | (.pending, s1) => (.pending, s1)
  | (.returned api, s1) =>
    let s2 := emit (.getAll api) s1
    match w.getAll s1.trace api with
    | .error e => (.threw e, s2)
    | .ok lights =>
      match lights.find? (fun l => l.id.strictEq lightId) with
      | none =>
        waitForKeyPress (emit (.consoleError ("Invalid light ID: " ++ lightId.toStr)) s2)
      | some _ =>
        let state : LightState := ⟨true, some 100⟩
        let s3 := emit (.setLightState api lightId state) s2
        match w.setLightState s2.trace api lightId state with
        | .error e => (.threw e, s3)
        | .ok _ =>
          waitForKeyPress (emit (.consoleLog ("Light " ++ lightId.toStr ++ " turned on")) s3)

/-- Lines 121-136. -/
def turnOffLight (w : World) (lightId : JsNum) (s : State) : Completion Unit × State :=
  match connectToBridge w s with
  | (.threw e, s1) => (.threw e, s1)
  | (.pending, s1) => (.pending, s1)
  | (.returned api, s1) =>
    let s2 := emit (.getAll api) s1
    match w.getAll s1.trace api with
    | .error e => (.threw e, s2)
    | .ok lights =>
      match lights.find? (fun l => l.id.strictEq lightId) with
      | none =>
        waitForKeyPress (emit (.consoleError ("Invalid light ID: " ++ lightId.toStr)) s2)
      | some _ =>
        let state : LightState := ⟨false, none⟩
        let s3 := emit (.setLightState api lightId state) s2
        match w.setLightState s2.trace api lightId state with
        | .error e => (.threw e, s3)
        | .ok _ =>
          waitForKeyPress (emit (.consoleLog ("Light " ++ lightId.toStr ++ " turned off")) s3)

/-! ## The built-in `parseInt` (ECMA-262, radix absent)

The digits are read exactly and the result is the double nearest to the integer they
denote, as the standard has it. -/

def isStrWhiteSpace (c : Char) : Bool :=
  c.toNat ∈ [0x09, 0x0A, 0x0B, 0x0C, 0x0D, 0x20, 0xA0, 0x1680, 0x2028, 0x2029, 0x202F, 0x205F,
    0x3000, 0xFEFF] || (0x2000 ≤ c.toNat && c.toNat ≤ 0x200A)

def digitValue (c : Char) : Option Nat :=
  if '0'.toNat ≤ c.toNat ∧ c.toNat ≤ '9'.toNat then some (c.toNat - '0'.toNat)
  else if 'a'.toNat ≤ c.toNat ∧ c.toNat ≤ 'z'.toNat then some (c.toNat - 'a'.toNat + 10)
  else if 'A'.toNat ≤ c.toNat ∧ c.toNat ≤ 'Z'.toNat then some (c.toNat - 'A'.toNat + 10)
  else none

def isRadixDigit (radix : Nat) (c : Char) : Bool :=
  match digitValue c with
  | some d => d < radix
  | none => false

/-- The value of the longest run of digits at the head of `cs`, as a double of the
given sign; `NaN` when there is no digit. -/
def parseDigits (negative : Bool) (radix : Nat) (cs : List Char) : JsNum :=
  match cs.takeWhile (isRadixDigit radix) with
  | [] => .nan
  | ds =>
    match roundToDouble (ds.foldl (fun acc c => acc * radix + (digitValue c).getD 0) 0) with
    | none => .infinity negative
    | some v => .int (if negative then -(v : Int) else (v : Int))

def parseUnsigned (negative : Bool) : List Char → JsNum
  | '0' :: 'x' :: rest => parseDigits negative 16 rest
  | '0' :: 'X' :: rest => parseDigits negative 16 rest
  | cs => parseDigits negative 10 cs

def parseInt (str : String) : JsNum :=
  match str.data.dropWhile isStrWhiteSpace with
  | '-' :: rest => parseUnsigned true rest
  | '+' :: rest => parseUnsigned false rest
  | cs => parseUnsigned false cs

/-! ## The menu loop -/

/-- How the menu loop ends: `rl.close()` was called; a question waits for input that
never comes; an `async` callback rejected with nothing to catch it, after which no
further prompt is issued; or the model ran out of fuel. -/
inductive LoopEnd where
  | closed
  | awaitingInput
  | unhandledRejection (err : JsError)
  | outOfFuel
  deriving DecidableEq

/-- Lines 145-154. -/
def printMenu (s : State) : State :=
  emit (.consoleLog "└─────────────────────┘")
    (emit (.consoleLog "│ 4. Exit             │")
      (emit (.consoleLog "│ 3. Turn off light   │")
        (emit (.consoleLog "│ 2. Turn on light    │")
          (emit (.consoleLog "│ 1. List all lights  │")
            (emit (.consoleLog "┌─────────────────────┐")
              (emit (.consoleLog "╰─────────────────────╯")
                (emit (.consoleLog "│         MENU        │")
                  (emit (.consoleLog "╭─────────────────────╮")
                    (emit .consoleClear s)))))))))

/-- The banner every case of the `switch` starts with. -/
def printBanner (title : String) (s : State) : State :=
  emit (.consoleLog "╰─────────────────────╯")
    (emit (.consoleLog title)
      (emit (.consoleLog "╭─────────────────────╮")
        (emit .consoleClear s)))

/-- One line read by `rl.question`: the prompt is written, and the callback receives
the next line of input if there is one. -/
def question (prompt : String) (s : State) : Option String × State :=
  let s1 := emit (.question prompt) s
  match s1.stdin with
  | [] => (none, s1)
  | line :: rest => (some line, { s1 with stdin := rest })

/-- Lines 200-204: the `catch` of the command callback.  `none` stands for the call
`askQuestion()` that ends the block. -/
def menuCatch (err : JsError) (s : State) : Option LoopEnd × State :=
  match waitForKeyPress (emit (.consoleError ("Unexpected error: " ++ err.message)) s) with
  | (.returned _, s1) => (none, s1)
  | (.threw e, s1) => (some (.unhandledRejection e), s1)
  | (.pending, s1) => (some .awaitingInput, s1)

/-- Lines 155-205: the callback of `rl.question('Command » ', ..)`.  `none` stands for
reaching a call `askQuestion()`.  In the cases '2' and '3' the work is done by a second
callback (lines 171-174, 181-184), which runs after the `try` statement has been left. -/
def commandCallback (w : World) (action : String) (s : State) : Option LoopEnd × State :=
  if action = "1" then
    match listAllLights w (printBanner "│        LIGHTS       │" s) with
    | (.returned _, s1) => (none, s1)
    | (.threw err, s1) => menuCatch err s1
    | (.pending, s1) => (some .awaitingInput, s1)
  else if action = "2" then
    match question "Enter the light ID to turn on: "
        (printBanner "│   TURN ON LIGHTS    │" s) with
    | (none, s1) => (some .awaitingInput, s1)
    | (some lightId, s1) =>
      match turnOnLight w (parseInt lightId) s1 with
      | (.returned _, s2) => (none, s2)
      | (.threw err, s2) => (some (.unhandledRejection err), s2)
      | (.pending, s2) => (some .awaitingInput, s2)
  else if action = "3" then
    match question "Enter the light ID to turn off: "
        (printBanner "│   TURN OFF LIGHTS   │" s) with
    | (none, s1) => (some .awaitingInput, s1)
    | (some lightId, s1) =>
      match turnOffLight w (parseInt lightId) s1 with
      | (.returned _, s2) => (none, s2)
      | (.threw err, s2) => (some (.unhandledRejection err), s2)
      | (.pending, s2) => (some .awaitingInput, s2)
  else if action = "4" then
    (some .closed,
      emit .rlClose (emit (.consoleLog "Exiting...") (printBanner "│      GOODBYE!       │" s)))
  else
    match waitForKeyPress (emit (.consoleLog "Invalid option") s) with
    | (.returned _, s1) => (none, s1)
    | (.threw err, s1) => menuCatch err s1
    | (.pending, s1) => (some .awaitingInput, s1)

/-- Lines 144-206, with a bound on the number of prompts. -/
def askQuestion (w : World) : Nat → State → LoopEnd × State
  | 0, s => (.outOfFuel, s)
  | fuel + 1, s =>
    match question "Command » " (printMenu s) with
    | (none, s1) => (.awaitingInput, s1)
    | (some action, s1) =>
      match commandCallback w action s1 with
      | (some r, s2) => (r, s2)
      | (none, s2) => askQuestion w fuel s2

/-- Lines 138-209: `promptUser` opens the readline interface and starts the loop. -/
def promptUser (w : World) (fuel : Nat) (s : State) : LoopEnd × State :=
  askQuestion w fuel s

/-! ## Reading a trace -/

/-- The registration request of line 42. -/
def Effect.isRegistrationRequest : Effect → Bool
  | .usersCreateUser _ _ _ => true
  | _ => false

/-- A connection opened with a credential (lines 76 and 84). -/
def Effect.isAuthenticatedConnect : Effect → Bool
  | .connect _ (some _) => true
  | _ => false

def Effect.isSetLightState : Effect → Bool
  | .setLightState _ _ _ => true
  | _ => false

def Effect.isAppend : Effect → Bool
  | .appendFileSync _ _ => true
  | _ => false

/-- The bridge address a call is sent to, for the effects that are calls to a bridge. -/
def Effect.address : Effect → Option String
  | .connect ip _ => some ip
  | .usersCreateUser api _ _ => some api.bridgeIp
  | .getAll api => some api.bridgeIp
  | .setLightState api _ _ => some api.bridgeIp
  | _ => none

/-- The text an effect writes to the console. -/
def Effect.text : Effect → Option String
  | .consoleLog t => some t
  | .consoleWarn t => some t
  | .consoleError t => some t
  | .question t => some t
  | _ => none

/-- Whether `needle` occurs inside `hay`. -/
def occursIn (needle hay : String) : Bool :=
  hay.data.tails.any (fun rest => needle.data.isPrefixOf rest)

/-- Whether the effect writes a text in which `needle` occurs. -/
def Effect.mentions (needle : String) (e : Effect) : Bool :=
  match e.text with
  | some t => occursIn needle t
  | none => false

/-- The run of `connectToBridge` from `s` locates the bridge at `ip` and, the stored
credential being absent or refused, enters its `catch` block (lines 80-88) in
state `s2`. -/
def EntersRegister (w : World) (s : State) (ip : String) (s2 : State) : Prop :=
  ∃ v s1 e, locateBridge w s = (.returned v, s1) ∧ truthyStr v = some ip
    ∧ tryReuse w ip s.USERNAME s1 = (.error e, s2)

/-- The run of `createUser` from `s` locates the bridge at `ip`, opens the
unauthenticated connection (line 39), and gets `answer` to the registration request of
line 42. -/
def RegistrationAnswered (w : World) (s : State) (ip : String)
    (answer : Except JsError CreatedUser) : Prop :=
  ∃ v s1, locateBridge w (emit (.call "createUser") s) = (.returned v, s1)
    ∧ truthyStr v = some ip ∧ w.connect s1.trace ip none = .ok ()
    ∧ w.usersCreateUser (s1.trace ++ [.connect ip none]) ⟨ip, none⟩ appName deviceName
        = answer

/-- The run of `createUser` from `s` gets the credential `u` in answer to its
registration request, sent to `ip`, and the append of line 45 succeeds. -/
def RegistrationStored (w : World) (s : State) (ip u : String) : Prop :=
  ∃ v s1, locateBridge w (emit (.call "createUser") s) = (.returned v, s1)
    ∧ truthyStr v = some ip ∧ w.connect s1.trace ip none = .ok ()
    ∧ w.usersCreateUser (s1.trace ++ [.connect ip none]) ⟨ip, none⟩ appName deviceName
        = .ok ⟨u⟩
    ∧ w.appendFileSync
        (s1.trace ++ [.connect ip none, .usersCreateUser ⟨ip, none⟩ appName deviceName,
          .consoleLog ("Created user: " ++ u)])
        ".env" ("\nHUE_USERNAME=" ++ u) = .ok ()

/-- What lines 51-60 do on a Hue error of type `t` with message `msg`: the link-button
banner for type 101, the generic message with the raw text otherwise, and then the
prompt of the acknowledgment gate. -/
def catchOutput (t : Int) (msg : String) : List Effect :=
  if t = 101 then
    [.consoleClear, .consoleLog "╭─────────────────────╮", .consoleLog "│        ERROR        │",
      .consoleLog "╰─────────────────────╯", .consoleError linkButtonMessage,
      .question pressAnyKey]
  else
    [.consoleError ("Unexpected error creating user: " ++ msg), .question pressAnyKey]

/-! ## Concrete worlds and states -/

/-- A world with no fixed address, whose discovery finds nothing and whose bridge
refuses everything. -/
def deadWorld : World where
  BRIDGE_IP := none
  nupnpSearch := fun _ => .ok []
  connect := fun _ _ _ => .error (.plain "connect ECONNREFUSED")
  usersCreateUser := fun _ _ _ _ => .error (.plain "connect ECONNREFUSED")
  appendFileSync := fun _ _ _ => .ok ()
  getAll := fun _ _ => .error (.plain "connect ECONNREFUSED")
  setLightState := fun _ _ _ _ => .error (.plain "connect ECONNREFUSED")

def freshState (stdin : List String) : State :=
  { USERNAME := none, dotenv := "", stdin := stdin, trace := [] }

/-- A household with the bridge address fixed in the environment.  The bridge accepts
every credential but the revoked "stale-user", issues "new-user" on registration and
lists one light, with id 1. -/
def homeWorld : World where
  BRIDGE_IP := some "192.168.1.2"
  nupnpSearch := fun _ => .ok [⟨"10.0.0.5"⟩]
  connect := fun _ _ username =>
    if username = some "stale-user" then .error (.api 1 "unauthorized user") else .ok ()
  usersCreateUser := fun _ _ _ _ => .ok ⟨"new-user"⟩
  appendFileSync := fun _ _ _ => .ok ()
  getAll := fun _ _ => .ok [⟨.int 1, "Desk", true, some 8000⟩]
  setLightState := fun _ _ _ _ => .ok ()

def storedState (username : String) (stdin : List String) : State :=
  { USERNAME := some username, dotenv := "\nHUE_USERNAME=" ++ username, stdin := stdin,
    trace := [] }

/-- No fixed address; discovery finds one bridge at 10.0.0.5, whose link button has
not been pressed. -/
def linkWorld : World where
  BRIDGE_IP := none
  nupnpSearch := fun _ => .ok [⟨"10.0.0.5"⟩]
  connect := fun _ _ _ => .ok ()
  usersCreateUser := fun _ _ _ _ => .error (.api 101 "link button not pressed")
  appendFileSync := fun _ _ _ => .ok ()
  getAll := fun _ _ => .ok []
  setLightState := fun _ _ _ _ => .ok ()

/-- As `linkWorld`, but the registration request dies on the network: the error is a
plain `Error` with a message and no `getHueErrorType`. -/
def offlineWorld : World where
  BRIDGE_IP := none
  nupnpSearch := fun _ => .ok [⟨"10.0.0.5"⟩]
  connect := fun _ _ _ => .ok ()
  usersCreateUser := fun _ _ _ _ => .error (.plain "connect ETIMEDOUT 10.0.0.5:443")
  appendFileSync := fun _ _ _ => .ok ()
  getAll := fun _ _ => .ok []
  setLightState := fun _ _ _ _ => .ok ()

/-- The state in which `connectToBridge`, run in `homeWorld` with the revoked
credential, enters its `catch` block and calls `createUser`. -/
def staleAtRegister : State :=
  emit (.consoleWarn registerWarning)
    (emit (.connect "192.168.1.2" (some "stale-user")) (storedState "stale-user" []))

/-- The state in which `connectToBridge`, run in `linkWorld` or `offlineWorld` without a
credential, calls `createUser`. -/
def freshAtRegister : State :=
  emit (.consoleWarn registerWarning) (emit .nupnpSearch (freshState ["x"]))

/-- As `freshAtRegister`, with an operator who types nothing. -/
def silentAtRegister : State :=
  emit (.consoleWarn registerWarning) (emit .nupnpSearch (freshState []))

/-- As `homeWorld`, but `.env` cannot be written: the append fails with a file-system
error, which is a plain `Error`. -/
def readOnlyWorld : World where
  BRIDGE_IP := some "192.168.1.2"
  nupnpSearch := fun _ => .ok [⟨"10.0.0.5"⟩]
  connect := fun _ _ username =>
    if username = some "stale-user" then .error (.api 1 "unauthorized user") else .ok ()
  usersCreateUser := fun _ _ _ _ => .ok ⟨"new-user"⟩
  appendFileSync := fun _ _ _ => .error (.plain "EACCES: permission denied, open .env")
  getAll := fun _ _ => .ok [⟨.int 1, "Desk", true, some 8000⟩]
  setLightState := fun _ _ _ _ => .ok ()

/-- As `homeWorld`, but the bridge answers the registration request with an empty
credential. -/
def blankCredentialWorld : World where
  BRIDGE_IP := some "192.168.1.2"
  nupnpSearch := fun _ => .ok [⟨"10.0.0.5"⟩]
  connect := fun _ _ username =>
    if username = some "stale-user" then .error (.api 1 "unauthorized user") else .ok ()
  usersCreateUser := fun _ _ _ _ => .ok ⟨""⟩
  appendFileSync := fun _ _ _ => .ok ()
  getAll := fun _ _ => .ok [⟨.int 1, "Desk", true, some 8000⟩]
  setLightState := fun _ _ _ _ => .ok ()

/-- As `homeWorld`, but the registration request is answered with a Hue error of
type 7. -/
def invalidValueWorld : World where
  BRIDGE_IP := some "192.168.1.2"
  nupnpSearch := fun _ => .ok [⟨"10.0.0.5"⟩]
  connect := fun _ _ username =>
    if username = some "stale-user" then .error (.api 1 "unauthorized user") else .ok ()
  usersCreateUser := fun _ _ _ _ => .error (.api 7 "invalid value")
  appendFileSync := fun _ _ _ => .ok ()
  getAll := fun _ _ => .ok [⟨.int 1, "Desk", true, some 8000⟩]
  setLightState := fun _ _ _ _ => .ok ()

/-- The bridge address is fixed but the bridge is switched off: every connection,
with or without a credential, fails on the network. -/
def unreachableWorld : World where
  BRIDGE_IP := some "192.168.1.2"
  nupnpSearch := fun _ => .ok []
  connect := fun _ _ _ => .error (.plain "connect EHOSTUNREACH 192.168.1.2:443")
  usersCreateUser := fun _ _ _ _ => .error (.plain "connect EHOSTUNREACH 192.168.1.2:443")
  appendFileSync := fun _ _ _ => .ok ()
  getAll := fun _ _ => .error (.plain "connect EHOSTUNREACH 192.168.1.2:443")
  setLightState := fun _ _ _ _ => .error (.plain "connect EHOSTUNREACH 192.168.1.2:443")

/-- No fixed address; discovery finds the bridge at 10.0.0.5 when `connectToBridge`
asks and finds nothing when `createUser` asks again. -/
def vanishingWorld : World where
  BRIDGE_IP := none
  nupnpSearch := fun history =>
    if Effect.call "createUser" ∈ history then .ok [] else .ok [⟨"10.0.0.5"⟩]
  connect := fun _ _ _ => .ok ()
  usersCreateUser := fun _ _ _ _ => .ok ⟨"new-user"⟩
  appendFileSync := fun _ _ _ => .ok ()
  getAll := fun _ _ => .ok []
  setLightState := fun _ _ _ _ => .ok ()

/-- No fixed address; two bridges answer discovery, and the one listed first changes
between the query made by `connectToBridge` and the query made by `createUser`. -/
def twoBridgeWorld : World where
  BRIDGE_IP := none
  nupnpSearch := fun history =>
    if Effect.call "createUser" ∈ history then .ok [⟨"10.0.0.9"⟩, ⟨"10.0.0.5"⟩]
    else .ok [⟨"10.0.0.5"⟩, ⟨"10.0.0.9"⟩]
  connect := fun _ _ _ => .ok ()
  usersCreateUser := fun _ _ _ _ => .ok ⟨"new-user"⟩
  appendFileSync := fun _ _ _ => .ok ()
  getAll := fun _ _ => .ok []
  setLightState := fun _ _ _ _ => .ok ()

/-! ## Lemmas: what each function does to the trace -/

@[simp] theorem emit_trace (e : Effect) (s : State) : (emit e s).trace = s.trace ++ [e] := rfl
@[simp] theorem emit_USERNAME (e : Effect) (s : State) : (emit e s).USERNAME = s.USERNAME := rfl
@[simp] theorem emit_dotenv (e : Effect) (s : State) : (emit e s).dotenv = s.dotenv := rfl
@[simp] theorem emit_stdin (e : Effect) (s : State) : (emit e s).stdin = s.stdin := rfl

theorem effects_of_trace {s s' : State} {d : List Effect} (h : s'.trace = s.trace ++ d) :
    effects s s' = d := by
  simp [effects, h]

@[simp] theorem truthyStr_null : truthyStr none = none := rfl

theorem truthyStr_some {v : Option String} {ip : String} (h : truthyStr v = some ip) :
    v = some ip ∧ ip ≠ "" := by
  cases v with
  | none => simp [truthyStr] at h
  | some x =>
    by_cases hx : x = ""
    · simp [truthyStr, hx] at h
    · simp [truthyStr, hx] at h
      subst h
      exact ⟨rfl, hx⟩

theorem locateBridge_run (w : World) (s : State) :
    ∃ d, (locateBridge w s).2 = { s with trace := s.trace ++ d }
      ∧ (d = [] ∨ d = [.nupnpSearch]
          ∨ (d = [.nupnpSearch, .consoleError "Failed to resolve any Hue Bridges"]
              ∧ (locateBridge w s).1 = .returned none))
      ∧ (∀ ip, truthyStr w.BRIDGE_IP = some ip → d = [])
      ∧ (locateBridge w s).1 ≠ .pending := by
  rcases hB : truthyStr w.BRIDGE_IP with _ | ip
  · rcases hN : w.nupnpSearch s.trace with e | (_ | ⟨r, rest⟩)
    · exact ⟨[.nupnpSearch], by simp [locateBridge, discoverBridge, hB, hN, emit]⟩
    · exact ⟨[.nupnpSearch, .consoleError "Failed to resolve any Hue Bridges"],
        by simp [locateBridge, discoverBridge, hB, hN, emit]⟩
    · exact ⟨[.nupnpSearch], by simp [locateBridge, discoverBridge, hB, hN, emit]⟩
  · exact ⟨[], by simp [locateBridge, hB]⟩

theorem createUserCatch_run (err : JsError) (s : State) :
    ∃ d, (createUserCatch err s).2.trace = s.trace ++ d
      ∧ d.count (.call "createUser") = 0
      ∧ d.countP Effect.isRegistrationRequest = 0
      ∧ d.countP Effect.isAuthenticatedConnect = 0
      ∧ d.countP Effect.isSetLightState = 0
      ∧ d.count .nupnpSearch = 0
      ∧ (∀ e ∈ d, e.address = none)
      ∧ ((createUserCatch err s).1 = .pending → s.stdin = []) := by
  rcases hE : err.getHueErrorType with _ | t
  · exact ⟨[], by simp [createUserCatch, hE]⟩
  · by_cases ht : t = 101
    · rcases hI : s.stdin with _ | ⟨line, rest⟩
      · refine ⟨[.consoleClear, .consoleLog "╭─────────────────────╮",
          .consoleLog "│        ERROR        │", .consoleLog "╰─────────────────────╯",
          .consoleError linkButtonMessage, .question pressAnyKey], ?_⟩
        simp [createUserCatch, hE, ht, waitForKeyPress, printLinkButtonError, hI,
          Effect.isRegistrationRequest, Effect.isAuthenticatedConnect, Effect.isSetLightState,
          Effect.address]
      · refine ⟨[.consoleClear, .consoleLog "╭─────────────────────╮",
          .consoleLog "│        ERROR        │", .consoleLog "╰─────────────────────╯",
          .consoleError linkButtonMessage, .question pressAnyKey], ?_⟩
        simp [createUserCatch, hE, ht, waitForKeyPress, printLinkButtonError, hI,
          Effect.isRegistrationRequest, Effect.isAuthenticatedConnect, Effect.isSetLightState,
          Effect.address]
    · rcases hI : s.stdin with _ | ⟨line, rest⟩
      · refine ⟨[.consoleError ("Unexpected error creating user: " ++ err.message),
          .question pressAnyKey], ?_⟩
        simp [createUserCatch, hE, ht, waitForKeyPress, hI,
          Effect.isRegistrationRequest, Effect.isAuthenticatedConnect, Effect.isSetLightState,
          Effect.address]
      · refine ⟨[.consoleError ("Unexpected error creating user: " ++ err.message),
          .question pressAnyKey], ?_⟩
        simp [createUserCatch, hE, ht, waitForKeyPress, hI,
          Effect.isRegistrationRequest, Effect.isAuthenticatedConnect, Effect.isSetLightState,
          Effect.address]

theorem createUser_run (w : World) (s : State) :
    ∃ d, (createUser w s).2.trace = s.trace ++ Effect.call "createUser" :: d
      ∧ d.count (.call "createUser") = 0
      ∧ d.countP Effect.isRegistrationRequest ≤ 1
      ∧ d.countP Effect.isAuthenticatedConnect = 0
      ∧ d.countP Effect.isSetLightState = 0
      ∧ d.count .nupnpSearch ≤ 1
      ∧ (∀ ip, truthyStr w.BRIDGE_IP = some ip →
          d.count .nupnpSearch = 0 ∧ ∀ e ∈ d, ∀ a, e.address = some a → a = ip)
      ∧ ((createUser w s).1 = .pending → s.stdin = []) := by
  obtain ⟨d1, hs1, hd1, hfix, hnp⟩ := locateBridge_run w (emit (.call "createUser") s)
  rcases hL : locateBridge w (emit (.call "createUser") s) with ⟨r, s1⟩
  rw [hL] at hs1 hd1 hnp
  simp only at hs1 hd1 hnp
  subst hs1
  have hcount : d1.count (.call "createUser") = 0 ∧ d1.countP Effect.isRegistrationRequest = 0
      ∧ d1.countP Effect.isAuthenticatedConnect = 0 ∧ d1.countP Effect.isSetLightState = 0
      ∧ d1.count .nupnpSearch ≤ 1 ∧ (∀ e ∈ d1, e.address = none) := by
    rcases hd1 with h | h | ⟨h, _⟩ <;> subst h <;>
      simp [Effect.isRegistrationRequest, Effect.isAuthenticatedConnect, Effect.isSetLightState,
        Effect.address]
  obtain ⟨hc1, hc2, hc3, hc4, hc5, hc6⟩ := hcount
  have hfix0 : ∀ ip, truthyStr w.BRIDGE_IP = some ip → d1.count .nupnpSearch = 0 := by
    intro ip hip
    simp [hfix ip hip]
  have haddr : ∀ ip : String, ∀ e ∈ d1, ∀ a, e.address = some a → a = ip := by
    intro ip e he a ha
    simp [hc6 e he] at ha
  cases r with
  | pending => exact absurd rfl hnp
  | threw e =>
    exact ⟨d1, by simp [createUser, hL], hc1, by omega, hc3, hc4, hc5,
      fun ip hip => ⟨hfix0 ip hip, haddr ip⟩, by simp [createUser, hL]⟩
  | returned v =>
    rcases hT : truthyStr v with _ | bridgeIp
    · exact ⟨d1, by simp [createUser, hL, hT], hc1, by omega, hc3, hc4, hc5,
        fun ip hip => ⟨hfix0 ip hip, haddr ip⟩, by simp [createUser, hL, hT]⟩
    · have hvip : ∀ ip, truthyStr w.BRIDGE_IP = some ip → bridgeIp = ip := by
        intro ip hip
        have := hfix ip hip
        subst this
        simp [locateBridge, hip] at hL
        rw [← hL.1] at hT
        simpa [truthyStr, (truthyStr_some hip).2] using hT.symm
      have hall : ∀ ip, truthyStr w.BRIDGE_IP = some ip → ∀ x : List Effect,
          (∀ e ∈ x, ∀ a, e.address = some a → a = bridgeIp) →
          (d1 ++ x).count .nupnpSearch = x.count .nupnpSearch
            ∧ ∀ e ∈ d1 ++ x, ∀ a, e.address = some a → a = ip := by
        intro ip hip x hx
        refine ⟨by simp [hfix0 ip hip], ?_⟩
        intro e he a ha
        rcases List.mem_append.1 he with h | h
        · exact haddr ip e h a ha
        · exact (hx e h a ha).trans (hvip ip hip)
      rcases hC : w.connect (s.trace ++ Effect.call "createUser" :: d1) bridgeIp none with e | u
      · refine ⟨d1 ++ [.connect bridgeIp none], by simp [createUser, hL, hT, hC], ?_, ?_, ?_, ?_,
          ?_, ?_, by simp [createUser, hL, hT, hC]⟩
        · simp [hc1]
        · simp [hc2, Effect.isRegistrationRequest]
        · simp [hc3, Effect.isAuthenticatedConnect]
        · simp [hc4, Effect.isSetLightState]
        · simpa using hc5
        · intro ip hip
          have := hall ip hip [.connect bridgeIp none] (by simp [Effect.address])
          simpa using this
      · rcases hR : w.usersCreateUser
            (s.trace ++ Effect.call "createUser" :: (d1 ++ [Effect.connect bridgeIp none]))
            { bridgeIp := bridgeIp, username := none } appName deviceName with err | created
        · obtain ⟨d2, hd2, hk1, hk2, hk3, hk4, hk5, hk6, hk7⟩ := createUserCatch_run err
            (emit (Effect.usersCreateUser { bridgeIp := bridgeIp, username := none } appName
              deviceName) (emit (Effect.connect bridgeIp none)
                { USERNAME := s.USERNAME, dotenv := s.dotenv, stdin := s.stdin,
                  trace := s.trace ++ Effect.call "createUser" :: d1 }))
          refine ⟨d1 ++ [.connect bridgeIp none,
              .usersCreateUser { bridgeIp := bridgeIp, username := none } appName deviceName]
              ++ d2, ?_, ?_, ?_, ?_, ?_, ?_, ?_, ?_⟩
          · simp [createUser, hL, hT, hC, hR, hd2]
          · simp [hc1, hk1]
          · simp [hc2, hk2, Effect.isRegistrationRequest]
          · simp [hc3, hk3, Effect.isAuthenticatedConnect]
          · simp [hc4, hk4, Effect.isSetLightState]
          · simpa [hk5] using hc5
          · intro ip hip
            have := hall ip hip ([.connect bridgeIp none,
              .usersCreateUser { bridgeIp := bridgeIp, username := none } appName deviceName]
              ++ d2) (by
                intro e he a ha
                rcases List.mem_append.1 he with h | h
                · revert ha
                  rcases List.mem_cons.1 h with h | h
                  · subst h; simp [Effect.address]; exact fun h => h.symm
                  · simp at h; subst h; simp [Effect.address]; exact fun h => h.symm
                · simp [hk6 e h] at ha)
            simpa [hk5] using this
          · simpa [createUser, hL, hT, hC, hR] using hk7
        · rcases hA : w.appendFileSync
              (s.trace ++ Effect.call "createUser" :: (d1 ++ [Effect.connect bridgeIp none,
                Effect.usersCreateUser { bridgeIp := bridgeIp, username := none } appName
                  deviceName, Effect.consoleLog ("Created user: " ++ created.username)]))
              ".env" ("\nHUE_USERNAME=" ++ created.username) with aerr | x
          · obtain ⟨d2, hd2, hk1, hk2, hk3, hk4, hk5, hk6, hk7⟩ := createUserCatch_run aerr
              (emit (Effect.appendFileSync ".env" ("\nHUE_USERNAME=" ++ created.username))
                (emit (Effect.consoleLog ("Created user: " ++ created.username))
                  (emit (Effect.usersCreateUser { bridgeIp := bridgeIp, username := none }
                    appName deviceName) (emit (Effect.connect bridgeIp none)
                      { USERNAME := s.USERNAME, dotenv := s.dotenv, stdin := s.stdin,
                        trace := s.trace ++ Effect.call "createUser" :: d1 }))))
            refine ⟨d1 ++ [.connect bridgeIp none,
                .usersCreateUser { bridgeIp := bridgeIp, username := none } appName deviceName,
                .consoleLog ("Created user: " ++ created.username),
                .appendFileSync ".env" ("\nHUE_USERNAME=" ++ created.username)]
                ++ d2, ?_, ?_, ?_, ?_, ?_, ?_, ?_, ?_⟩
            · simp [createUser, hL, hT, hC, hR, hA, hd2]
            · simp [hc1, hk1]
            · simp [hc2, hk2, Effect.isRegistrationRequest]
            · simp [hc3, hk3, Effect.isAuthenticatedConnect]
            · simp [hc4, hk4, Effect.isSetLightState]
            · simpa [hk5] using hc5
            · intro ip hip
              have := hall ip hip ([.connect bridgeIp none,
                .usersCreateUser { bridgeIp := bridgeIp, username := none } appName deviceName,
                .consoleLog ("Created user: " ++ created.username),
                .appendFileSync ".env" ("\nHUE_USERNAME=" ++ created.username)]
                ++ d2) (by
                  intro e he a ha
                  rcases List.mem_append.1 he with h | h
                  · simp at h
                    rcases h with h | h | h | h <;> subst h <;> simp [Effect.address] at ha
                    · exact ha.symm
                    · exact ha.symm
                  · simp [hk6 e h] at ha)
              simpa [hk5] using this
            · simpa [createUser, hL, hT, hC, hR, hA] using hk7
          · refine ⟨d1 ++ [.connect bridgeIp none,
                .usersCreateUser { bridgeIp := bridgeIp, username := none } appName deviceName,
                .consoleLog ("Created user: " ++ created.username),
                .appendFileSync ".env" ("\nHUE_USERNAME=" ++ created.username)],
              by simp [createUser, hL, hT, hC, hR, hA], ?_, ?_, ?_, ?_,
              ?_, ?_, by simp [createUser, hL, hT, hC, hR, hA]⟩
            · simp [hc1]
            · simp [hc2, Effect.isRegistrationRequest]
            · simp [hc3, Effect.isAuthenticatedConnect]
            · simp [hc4, Effect.isSetLightState]
            · simpa using hc5
            · intro ip hip
              have := hall ip hip [.connect bridgeIp none,
                .usersCreateUser { bridgeIp := bridgeIp, username := none } appName deviceName,
                .consoleLog ("Created user: " ++ created.username),
                .appendFileSync ".env" ("\nHUE_USERNAME=" ++ created.username)]
                (by simp [Effect.address])
              simpa using this

theorem tryReuse_run (w : World) (ip : String) (username : Option String) (s : State) :
    (∃ u, truthyStr username = some u ∧ (tryReuse w ip username s).2 = emit (.connect ip (some u)) s
        ∧ (w.connect s.trace ip (some u) = .ok () →
            (tryReuse w ip username s).1 = .ok ⟨ip, some u⟩)
        ∧ (∀ e, w.connect s.trace ip (some u) = .error e →
            (tryReuse w ip username s).1 = .error e))
    ∨ (truthyStr username = none
        ∧ tryReuse w ip username s = (.error (.plain "Username not found in .env"), s)) := by
  rcases hU : truthyStr username with _ | u
  · right
    simp [tryReuse, hU]
  · left
    refine ⟨u, rfl, ?_⟩
    rcases hC : w.connect s.trace ip (some u) with e | x
    · simp [tryReuse, hU, hC]
    · simp [tryReuse, hU, hC]

theorem connectCatch_run (w : World) (ip : String) (s : State) :
    ∃ d, (connectCatch w ip s).2.trace = s.trace ++
          Effect.consoleWarn registerWarning
            :: Effect.call "createUser" :: d
      ∧ d.count (.call "createUser") = 0
      ∧ d.countP Effect.isRegistrationRequest ≤ 1
      ∧ d.countP Effect.isAuthenticatedConnect ≤ 1
      ∧ d.countP Effect.isSetLightState = 0
      ∧ d.count .nupnpSearch ≤ 1
      ∧ (∀ a u, Effect.connect a (some u) ∈ d → a = ip)
      ∧ (∀ fixed, truthyStr w.BRIDGE_IP = some fixed →
          d.count .nupnpSearch = 0 ∧ ∀ e ∈ d, ∀ a, e.address = some a → a = fixed ∨ a = ip)
      ∧ ((connectCatch w ip s).1 = .pending → s.stdin = []) := by
  obtain ⟨d, hd, h1, h2, h3, h4, h5, h6, h7⟩ :=
    createUser_run w (emit (.consoleWarn registerWarning) s)
  have hnoauth : ∀ a u, Effect.connect a (some u) ∉ d := by
    intro a u hmem
    have := List.countP_pos_iff.2 ⟨_, hmem, (by simp [Effect.isAuthenticatedConnect] :
      Effect.isAuthenticatedConnect (Effect.connect a (some u)) = true)⟩
    omega
  rcases hL : createUser w (emit (.consoleWarn registerWarning) s) with ⟨r, s2⟩
  rw [hL] at hd h7
  simp only [emit_trace, emit_stdin, List.append_assoc, List.singleton_append] at hd h7
  have hbase : ∀ fixed, truthyStr w.BRIDGE_IP = some fixed →
      d.count .nupnpSearch = 0 ∧ ∀ e ∈ d, ∀ a, e.address = some a → a = fixed ∨ a = ip :=
    fun fixed hf => ⟨(h6 fixed hf).1, fun e he a ha => Or.inl ((h6 fixed hf).2 e he a ha)⟩
  cases r with
  | pending =>
    exact ⟨d, by simp [connectCatch, hL, hd], h1, h2, by omega, h4, h5,
      fun a u hm => absurd hm (hnoauth a u), hbase, by simpa [connectCatch, hL] using h7⟩
  | threw e =>
    exact ⟨d, by simp [connectCatch, hL, hd], h1, h2, by omega, h4, h5,
      fun a u hm => absurd hm (hnoauth a u), hbase, by simp [connectCatch, hL]⟩
  | returned created =>
    rcases hT : truthyStr created with _ | u
    · exact ⟨d, by simp [connectCatch, hL, hT, hd], h1, h2, by omega, h4, h5,
        fun a u hm => absurd hm (hnoauth a u), hbase, by simp [connectCatch, hL, hT]⟩
    · have hprops : (d ++ [Effect.connect ip (some u)]).count (.call "createUser") = 0
          ∧ (d ++ [Effect.connect ip (some u)]).countP Effect.isRegistrationRequest ≤ 1
          ∧ (d ++ [Effect.connect ip (some u)]).countP Effect.isAuthenticatedConnect ≤ 1
          ∧ (d ++ [Effect.connect ip (some u)]).countP Effect.isSetLightState = 0
          ∧ (d ++ [Effect.connect ip (some u)]).count .nupnpSearch ≤ 1
          ∧ (∀ a u0, Effect.connect a (some u0) ∈ d ++ [Effect.connect ip (some u)] → a = ip)
          ∧ (∀ fixed, truthyStr w.BRIDGE_IP = some fixed →
              (d ++ [Effect.connect ip (some u)]).count .nupnpSearch = 0
              ∧ ∀ e ∈ d ++ [Effect.connect ip (some u)], ∀ a, e.address = some a →
                  a = fixed ∨ a = ip) := by
        refine ⟨by simp [h1], by simp [Effect.isRegistrationRequest]; omega,
          by simp [h3, Effect.isAuthenticatedConnect], by simp [h4, Effect.isSetLightState],
          by simpa using h5, ?_, ?_⟩
        · intro a u0 hm
          rcases List.mem_append.1 hm with h | h
          · exact absurd h (hnoauth a u0)
          · simp at h
            exact h.1
        · intro fixed hf
          refine ⟨by simp [(h6 fixed hf).1], ?_⟩
          intro e he a ha
          rcases List.mem_append.1 he with h | h
          · exact Or.inl ((h6 fixed hf).2 e h a ha)
          · simp at h
            subst h
            simp [Effect.address] at ha
            exact Or.inr ha.symm
      rcases hC : w.connect s2.trace ip (some u) with e | x
      · exact ⟨d ++ [Effect.connect ip (some u)], by simp only [connectCatch, hL, hT, hC]; simp [hd],
          hprops.1, hprops.2.1, hprops.2.2.1, hprops.2.2.2.1, hprops.2.2.2.2.1,
          hprops.2.2.2.2.2.1, hprops.2.2.2.2.2.2, by simp only [connectCatch, hL, hT, hC]; simp⟩
      · exact ⟨d ++ [Effect.connect ip (some u)], by simp only [connectCatch, hL, hT, hC]; simp [hd],
          hprops.1, hprops.2.1, hprops.2.2.1, hprops.2.2.2.1, hprops.2.2.2.2.1,
          hprops.2.2.2.2.2.1, hprops.2.2.2.2.2.2, by simp only [connectCatch, hL, hT, hC]; simp⟩

theorem locateBridge_fixed {w : World} {s s1 : State} {v : Option String} {ip fixed : String}
    (hL : locateBridge w s = (.returned v, s1)) (hT : truthyStr v = some ip)
    (hf : truthyStr w.BRIDGE_IP = some fixed) : ip = fixed ∧ s1 = s := by
  simp [locateBridge, hf] at hL
  rw [← hL.1] at hT
  have := (truthyStr_some hf).2
  simp [truthyStr, this] at hT
  exact ⟨hT.symm, hL.2.symm⟩

theorem connectToBridge_run (w : World) (s : State) :
    ∃ d, (connectToBridge w s).2.trace = s.trace ++ d
      ∧ d.count (.call "createUser") ≤ 1
      ∧ d.countP Effect.isRegistrationRequest ≤ 1
      ∧ d.countP Effect.isAuthenticatedConnect ≤ 2
      ∧ d.countP Effect.isSetLightState = 0
      ∧ d.count .nupnpSearch ≤ 2
      ∧ (∀ fixed, truthyStr w.BRIDGE_IP = some fixed →
          d.count .nupnpSearch = 0 ∧ ∀ e ∈ d, ∀ a, e.address = some a → a = fixed)
      ∧ (∀ v s1 ip, locateBridge w s = (.returned v, s1) → truthyStr v = some ip →
          ∀ a u, Effect.connect a (some u) ∈ d → a = ip)
      ∧ ((connectToBridge w s).1 = .pending → s.stdin = []) := by
  obtain ⟨d1, hs1, hd1, hfix, hnp⟩ := locateBridge_run w s
  obtain ⟨r, s1, hL⟩ : ∃ r s1, locateBridge w s = (r, s1) := ⟨_, _, rfl⟩
  rw [hL] at hs1 hd1 hnp
  simp only at hs1 hd1 hnp
  have hcount : d1.count (.call "createUser") = 0 ∧ d1.countP Effect.isRegistrationRequest = 0
      ∧ d1.countP Effect.isAuthenticatedConnect = 0 ∧ d1.countP Effect.isSetLightState = 0
      ∧ d1.count .nupnpSearch ≤ 1 ∧ (∀ e ∈ d1, e.address = none) := by
    rcases hd1 with h | h | ⟨h, _⟩ <;> subst h <;>
      simp [Effect.isRegistrationRequest, Effect.isAuthenticatedConnect, Effect.isSetLightState,
        Effect.address]
  obtain ⟨hc1, hc2, hc3, hc4, hc5, hc6⟩ := hcount
  have hnoauth1 : ∀ a u, Effect.connect a (some u) ∉ d1 := by
    intro a u hmem
    have := hc6 _ hmem
    simp [Effect.address] at this
  have hfix1 : ∀ fixed, truthyStr w.BRIDGE_IP = some fixed →
      d1.count .nupnpSearch = 0 ∧ ∀ e ∈ d1, ∀ a, e.address = some a → a = fixed := by
    intro fixed hf
    refine ⟨by simp [hfix fixed hf], ?_⟩
    intro e he a ha
    simp [hc6 e he] at ha
  have htr1 : s1.trace = s.trace ++ d1 := by simp [hs1]
  have hin1 : s1.stdin = s.stdin := by simp [hs1]
  have hleaf : (connectToBridge w s).2 = s1 → (connectToBridge w s).1 ≠ .pending →
      ∃ d, (connectToBridge w s).2.trace = s.trace ++ d
      ∧ d.count (.call "createUser") ≤ 1
      ∧ d.countP Effect.isRegistrationRequest ≤ 1
      ∧ d.countP Effect.isAuthenticatedConnect ≤ 2
      ∧ d.countP Effect.isSetLightState = 0
      ∧ d.count .nupnpSearch ≤ 2
      ∧ (∀ fixed, truthyStr w.BRIDGE_IP = some fixed →
          d.count .nupnpSearch = 0 ∧ ∀ e ∈ d, ∀ a, e.address = some a → a = fixed)
      ∧ (∀ v s1 ip, locateBridge w s = (.returned v, s1) → truthyStr v = some ip →
          ∀ a u, Effect.connect a (some u) ∈ d → a = ip)
      ∧ ((connectToBridge w s).1 = .pending → s.stdin = []) := by
    intro hst hnp2
    exact ⟨d1, by rw [hst, htr1], by omega, by omega, by omega, hc4, by omega, hfix1,
      fun v0 s0 ip0 _ _ a u hm => absurd hm (hnoauth1 a u), fun h => absurd h hnp2⟩
  cases r with
  | pending => exact absurd rfl hnp
  | threw e =>
    exact hleaf (by simp [connectToBridge, hL]) (by simp [connectToBridge, hL])
  | returned v =>
    rcases hT : truthyStr v with _ | ip
    · exact hleaf (by simp [connectToBridge, hL, hT]) (by simp [connectToBridge, hL, hT])
    · have hipfix : ∀ fixed, truthyStr w.BRIDGE_IP = some fixed → ip = fixed :=
        fun fixed hf => (locateBridge_fixed hL hT hf).1
      have hipuniq : ∀ v0 s0 ip0, locateBridge w s = (Completion.returned v0, s0) →
          truthyStr v0 = some ip0 → ip0 = ip := by
        intro v0 s0 ip0 h h2
        rw [hL] at h
        simp at h
        rw [← h.1, hT] at h2
        simpa using h2.symm
      have hcatch : ∀ (s2 : State) (pre : List Effect), s2.trace = s.trace ++ pre →
          s2.stdin = s.stdin → pre.count (.call "createUser") = 0 →
          pre.countP Effect.isRegistrationRequest = 0 →
          pre.countP Effect.isAuthenticatedConnect ≤ 1 →
          pre.countP Effect.isSetLightState = 0 →
          pre.count .nupnpSearch = d1.count .nupnpSearch →
          (∀ e ∈ pre, ∀ a, e.address = some a → a = ip) →
          connectToBridge w s = connectCatch w ip s2 →
          ∃ d, (connectToBridge w s).2.trace = s.trace ++ d
          ∧ d.count (.call "createUser") ≤ 1
          ∧ d.countP Effect.isRegistrationRequest ≤ 1
          ∧ d.countP Effect.isAuthenticatedConnect ≤ 2
          ∧ d.countP Effect.isSetLightState = 0
          ∧ d.count .nupnpSearch ≤ 2
          ∧ (∀ fixed, truthyStr w.BRIDGE_IP = some fixed →
              d.count .nupnpSearch = 0 ∧ ∀ e ∈ d, ∀ a, e.address = some a → a = fixed)
          ∧ (∀ v s1 ip, locateBridge w s = (.returned v, s1) → truthyStr v = some ip →
              ∀ a u, Effect.connect a (some u) ∈ d → a = ip)
          ∧ ((connectToBridge w s).1 = .pending → s.stdin = []) := by
        intro s2 pre htr2 hin2 p1 p2 p3 p4 p5 p6 heq
        obtain ⟨dc, hdc, k1, k2, k3, k4, k5, k6, k7, k8⟩ := connectCatch_run w ip s2
        refine ⟨pre ++ Effect.consoleWarn registerWarning
            :: Effect.call "createUser" :: dc, ?_, ?_, ?_, ?_, ?_, ?_, ?_, ?_, ?_⟩
        · rw [heq, hdc, htr2]; simp
        · simp [p1, k1]
        · simp [p2, Effect.isRegistrationRequest]; omega
        · simp [Effect.isAuthenticatedConnect]; omega
        · simp [p4, k4, Effect.isSetLightState]
        · simp [p5]; omega
        · intro fixed hf
          have hk := k7 fixed hf
          have hd0 := (hfix1 fixed hf).1
          refine ⟨by simp [p5, hd0, hk.1], ?_⟩
          intro e he a ha
          rcases List.mem_append.1 he with h | h
          · exact (p6 e h a ha).trans (hipfix fixed hf)
          · rcases List.mem_cons.1 h with h | h
            · subst h; simp [Effect.address] at ha
            · rcases List.mem_cons.1 h with h | h
              · subst h; simp [Effect.address] at ha
              · rcases hk.2 e h a ha with h3 | h3
                · exact h3
                · exact h3.trans (hipfix fixed hf)
        · intro v0 s0 ip0 h0 hT0 a u hm
          rw [hipuniq v0 s0 ip0 h0 hT0]
          rcases List.mem_append.1 hm with h | h
          · exact p6 _ h a (by simp [Effect.address])
          · rcases List.mem_cons.1 h with h | h
            · simp at h
            · rcases List.mem_cons.1 h with h | h
              · simp at h
              · exact k6 a u h
        · rw [heq]
          intro hp
          rw [← hin2]
          exact k8 hp
      rcases tryReuse_run w ip s.USERNAME s1 with ⟨u, hU, hs2, hok, herr⟩ | ⟨hU, hnone⟩
      · rcases hC : w.connect s1.trace ip (some u) with e | x
        · have h2 := herr e hC
          apply hcatch (emit (.connect ip (some u)) s1) (d1 ++ [.connect ip (some u)])
          · simp [htr1]
          · simp [hin1]
          · simp [hc1]
          · simp [hc2, Effect.isRegistrationRequest]
          · simp [hc3, Effect.isAuthenticatedConnect]
          · simp [hc4, Effect.isSetLightState]
          · simp
          · intro e0 he0 a ha
            rcases List.mem_append.1 he0 with h | h
            · simp [hc6 e0 h] at ha
            · simp at h; subst h; simp [Effect.address] at ha; exact ha.symm
          · rcases hR : tryReuse w ip s.USERNAME s1 with ⟨r2, s2⟩
            rw [hR] at h2 hs2
            simp only at h2 hs2
            subst h2 hs2
            simp [connectToBridge, hL, hT, hR]
        · have h2 := hok hC
          rcases hR : tryReuse w ip s.USERNAME s1 with ⟨r2, s2⟩
          rw [hR] at h2 hs2
          simp only at h2 hs2
          subst h2 hs2
          refine ⟨d1 ++ [.connect ip (some u)], by simp [connectToBridge, hL, hT, hR, htr1],
            by simp [hc1], by simp [hc2, Effect.isRegistrationRequest],
            by simp [hc3, Effect.isAuthenticatedConnect], by simp [hc4, Effect.isSetLightState],
            by simp; omega, ?_, ?_, by simp [connectToBridge, hL, hT, hR]⟩
          · intro fixed hf
            refine ⟨by simp [(hfix1 fixed hf).1], ?_⟩
            intro e0 he0 a ha
            rcases List.mem_append.1 he0 with h | h
            · simp [hc6 e0 h] at ha
            · simp at h; subst h; simp [Effect.address] at ha
              exact ha.symm.trans (hipfix fixed hf)
          · intro v0 s0 ip0 h0 hT0 a u0 hm
            rw [hipuniq v0 s0 ip0 h0 hT0]
            rcases List.mem_append.1 hm with h | h
            · exact absurd h (hnoauth1 a u0)
            · simp at h; exact h.1
      · apply hcatch s1 d1 htr1 hin1 hc1 hc2 (by omega) hc4 rfl
        · intro e0 he0 a ha
          simp [hc6 e0 he0] at ha
        · simp [connectToBridge, hL, hT, hnone]

theorem generic_ne_linkButtonMessage (m : String) :
    "Unexpected error creating user: " ++ m ≠ linkButtonMessage := by
  intro h
  have h2 := congrArg (fun x => x.data.head?) h
  simp [String.data_append, linkButtonMessage] at h2

theorem connectToBridge_of_entersRegister {w : World} {s s2 : State} {ip : String}
    (h : EntersRegister w s ip s2) : connectToBridge w s = connectCatch w ip s2 := by
  obtain ⟨v, s1, e, hL, hT, hR⟩ := h
  simp [connectToBridge, hL, hT, hR]

/-- The state in which a located run ends its location step: the start state, or the
start state after the one discovery query. -/
theorem locateBridge_located {w : World} {s s1 : State} {v : Option String} {ip : String}
    (hL : locateBridge w s = (.returned v, s1)) (hT : truthyStr v = some ip) :
    s1 = s ∨ s1 = emit .nupnpSearch s := by
  obtain ⟨d1, hs1, hd1, -, -⟩ := locateBridge_run w s
  rw [hL] at hs1 hd1
  simp only at hs1 hd1
  rcases hd1 with h | h | ⟨_, h⟩
  · left; rw [hs1, h]; simp
  · right; rw [hs1, h]; rfl
  · simp only [Completion.returned.injEq] at h
    subst h
    simp at hT

theorem entersRegister_state {w : World} {s s2 : State} {ip : String}
    (h : EntersRegister w s ip s2) :
    ∃ pre, s2 = { s with trace := s.trace ++ pre }
      ∧ pre.count (.call "createUser") = 0
      ∧ pre.countP Effect.isRegistrationRequest = 0
      ∧ pre.countP Effect.isAuthenticatedConnect ≤ 1
      ∧ pre.count (.question pressAnyKey) = 0
      ∧ pre.countP Effect.isAppend = 0
      ∧ (∀ e ∈ pre, e.text = none) := by
  obtain ⟨v, s1, e, hL, hT, hR⟩ := h
  have h1 := locateBridge_located hL hT
  rcases tryReuse_run w ip s.USERNAME s1 with ⟨u, -, hs2, -, -⟩ | ⟨-, hnone⟩
  · rw [hR] at hs2
    simp only at hs2
    rcases h1 with h1 | h1
    · exact ⟨[.connect ip (some u)], by rw [hs2, h1]; rfl,
        by simp [Effect.isRegistrationRequest, Effect.isAuthenticatedConnect, Effect.isAppend,
          Effect.text]⟩
    · exact ⟨[.nupnpSearch, .connect ip (some u)], by rw [hs2, h1]; simp [emit],
        by simp [Effect.isRegistrationRequest, Effect.isAuthenticatedConnect, Effect.isAppend,
          Effect.text]⟩
  · rw [hR] at hnone
    simp only [Prod.mk.injEq] at hnone
    rcases h1 with h1 | h1
    · exact ⟨[], by rw [hnone.2, h1]; simp, by simp⟩
    · exact ⟨[.nupnpSearch], by rw [hnone.2, h1]; rfl,
        by simp [Effect.isRegistrationRequest, Effect.isAuthenticatedConnect, Effect.isAppend,
          Effect.text]⟩

theorem registrationAnswered_state {w : World} {s : State} {ip : String}
    {answer : Except JsError CreatedUser} (h : RegistrationAnswered w s ip answer) :
    ∃ d1, (d1 = [] ∨ d1 = [.nupnpSearch])
      ∧ locateBridge w (emit (.call "createUser") s)
          = (.returned (some ip), { s with trace := s.trace ++ Effect.call "createUser" :: d1 })
      ∧ w.connect (s.trace ++ Effect.call "createUser" :: d1) ip none = .ok ()
      ∧ w.usersCreateUser (s.trace ++ Effect.call "createUser" :: (d1 ++ [.connect ip none]))
          ⟨ip, none⟩ appName deviceName = answer := by
  obtain ⟨v, s1, hL, hT, hC, hR⟩ := h
  have hv := (truthyStr_some hT).1
  subst hv
  rcases locateBridge_located hL hT with h1 | h1
  · subst h1
    exact ⟨[], Or.inl rfl, by rw [hL]; rfl, by simpa using hC, by simpa using hR⟩
  · subst h1
    exact ⟨[.nupnpSearch], Or.inr rfl, by rw [hL]; simp [emit], by simpa using hC,
      by simpa using hR⟩

theorem registrationStored_answered {w : World} {s : State} {ip u : String}
    (h : RegistrationStored w s ip u) : RegistrationAnswered w s ip (.ok ⟨u⟩) := by
  obtain ⟨v, s1, hL, hT, hC, hR, -⟩ := h
  exact ⟨v, s1, hL, hT, hC, hR⟩

theorem createUser_answer_ok {w : World} {s : State} {ip u : String}
    (h : RegistrationStored w s ip u) :
    ∃ d1, (d1 = [] ∨ d1 = [.nupnpSearch])
      ∧ createUser w s = (.returned (some u),
          { USERNAME := some u, dotenv := s.dotenv ++ ("\nHUE_USERNAME=" ++ u),
            stdin := s.stdin,
            trace := s.trace ++ Effect.call "createUser" :: (d1 ++ [.connect ip none,
              .usersCreateUser ⟨ip, none⟩ appName deviceName,
              .consoleLog ("Created user: " ++ u),
              .appendFileSync ".env" ("\nHUE_USERNAME=" ++ u)]) }) := by
  obtain ⟨d1, hd1, hL, hC, hR⟩ := registrationAnswered_state (registrationStored_answered h)
  obtain ⟨v, s1, hL2, hT2, -, -, hA⟩ := h
  have hT : truthyStr (some ip) = some ip := by
    rw [(truthyStr_some hT2).1] at hT2
    exact hT2
  rw [hL] at hL2
  simp only [Prod.mk.injEq] at hL2
  rw [← hL2.2] at hA
  refine ⟨d1, hd1, ?_⟩
  simp only [createUser]
  rw [hL]
  simp only [List.append_assoc, List.cons_append, List.singleton_append] at hA
  simp [hT, hC, hR, hA, emit]

theorem createUser_answer_err {w : World} {s : State} {ip : String} {err : JsError}
    (h : RegistrationAnswered w s ip (.error err)) :
    ∃ d1, (d1 = [] ∨ d1 = [.nupnpSearch])
      ∧ createUser w s = createUserCatch err
          { s with trace := s.trace ++ Effect.call "createUser" :: (d1 ++ [.connect ip none,
              .usersCreateUser ⟨ip, none⟩ appName deviceName]) } := by
  obtain ⟨d1, hd1, hL, hC, hR⟩ := registrationAnswered_state h
  have hT : truthyStr (some ip) = some ip := by
    obtain ⟨v, s1, hL2, hT2, -, -⟩ := h
    rw [(truthyStr_some hT2).1] at hT2
    exact hT2
  refine ⟨d1, hd1, ?_⟩
  simp only [createUser]
  rw [hL]
  simp [hT, hC, hR, emit]

theorem createUserCatch_api (t : Int) (msg : String) (s : State) :
    createUserCatch (.api t msg) s
      = (if s.stdin = [] then .pending else .returned none,
          { s with stdin := s.stdin.tail, trace := s.trace ++ catchOutput t msg }) := by
  by_cases ht : t = 101
  · rcases hI : s.stdin with _ | ⟨line, rest⟩
    · simp [createUserCatch, JsError.getHueErrorType, ht, waitForKeyPress,
        printLinkButtonError, hI, catchOutput, emit]
    · simp [createUserCatch, JsError.getHueErrorType, ht, waitForKeyPress,
        printLinkButtonError, hI, catchOutput, emit]
  · rcases hI : s.stdin with _ | ⟨line, rest⟩
    · simp [createUserCatch, JsError.getHueErrorType, ht, waitForKeyPress,
        hI, catchOutput, emit, JsError.message]
    · simp [createUserCatch, JsError.getHueErrorType, ht, waitForKeyPress,
        hI, catchOutput, emit, JsError.message]

theorem createUser_answer_api {w : World} {s : State} {ip : String} {t : Int} {msg : String}
    (h : RegistrationAnswered w s ip (.error (.api t msg))) :
    ∃ d1, (d1 = [] ∨ d1 = [.nupnpSearch])
      ∧ createUser w s = (if s.stdin = [] then .pending else .returned none,
          { s with stdin := s.stdin.tail,
                   trace := s.trace ++ (Effect.call "createUser" :: (d1 ++ [.connect ip none,
                     .usersCreateUser ⟨ip, none⟩ appName deviceName]) ++ catchOutput t msg) }) := by
  obtain ⟨d1, hd1, hc⟩ := createUser_answer_err h
  refine ⟨d1, hd1, ?_⟩
  rw [hc, createUserCatch_api]
  simp

theorem entersRegister_of_failure {w : World} {s s1 : State} {v : Option String} {ip : String}
    (hloc : locateBridge w s = (.returned v, s1)) (hip : truthyStr v = some ip)
    (hfail : truthyStr s.USERNAME = none
      ∨ ∃ u e, truthyStr s.USERNAME = some u ∧ w.connect s1.trace ip (some u) = .error e) :
    EntersRegister w s ip (tryReuse w ip s.USERNAME s1).2 := by
  rcases hfail with h | ⟨u, e, hU, hC⟩
  · exact ⟨v, s1, .plain "Username not found in .env", hloc, hip, by simp [tryReuse, h]⟩
  · exact ⟨v, s1, e, hloc, hip, by simp [tryReuse, hU, hC]⟩

theorem connectCatch_answer_api {w : World} {s2 : State} {ip : String} {t : Int}
    {msg : String}
    (h : RegistrationAnswered w (emit (.consoleWarn registerWarning) s2) ip
      (.error (.api t msg))) (ip0 : String) :
    ∃ d1, (d1 = [] ∨ d1 = [.nupnpSearch])
      ∧ connectCatch w ip0 s2
        = (if s2.stdin = [] then .pending
            else .threw (.plain "Could not create a new Hue Bridge user"),
          { s2 with stdin := s2.stdin.tail,
                    trace := s2.trace ++ (Effect.consoleWarn registerWarning
                      :: Effect.call "createUser" :: (d1 ++ [.connect ip none,
                        .usersCreateUser ⟨ip, none⟩ appName deviceName]) ++ catchOutput t msg) })
      := by
  obtain ⟨d1, hd1, hc⟩ := createUser_answer_api h
  refine ⟨d1, hd1, ?_⟩
  simp only [connectCatch]
  rw [hc]
  by_cases hI : s2.stdin = []
  · simp [hI, emit]
  · simp [hI, emit]

theorem connectToBridge_returned_trace {w : World} {s s1 : State} {api : Api}
    (h : connectToBridge w s = (.returned api, s1)) :
    ∃ d, s1.trace = s.trace ++ d ∧ d.countP Effect.isSetLightState = 0 := by
  obtain ⟨d, hd, -, -, -, h4, -⟩ := connectToBridge_run w s
  rw [h] at hd
  exact ⟨d, hd, h4⟩

theorem waitForKeyPress_trace (s : State) :
    (waitForKeyPress s).2.trace = s.trace ++ [.question pressAnyKey] := by
  rcases hI : s.stdin with _ | ⟨line, rest⟩ <;> simp [waitForKeyPress, hI]

theorem waitForKeyPress_returned {s : State} (h : s.stdin ≠ []) :
    (waitForKeyPress s).1 = .returned () := by
  rcases hI : s.stdin with _ | ⟨line, rest⟩
  · exact absurd hI h
  · simp [waitForKeyPress, hI]

/-! ## The claims -/

/-- C1. When a stored credential is present (a non-empty `USERNAME`), the bridge has
been located at `ip`, and the bridge accepts the connection opened with the credential,
`connectToBridge` returns that connection as the session.  The effects of the call are
those of locating the bridge (nothing, or the one discovery query) followed by the one
connection: `createUser` is not invoked, no registration request is sent, nothing is
appended to `.env`, and `USERNAME` is unchanged. -/
theorem connectToBridge_reuses_accepted_credential (w : World) (s s1 : State)
    (v : Option String) (ip u : String)
    (hloc : locateBridge w s = (.returned v, s1)) (hip : truthyStr v = some ip)
    (huser : truthyStr s.USERNAME = some u)
    (haccept : w.connect s1.trace ip (some u) = .ok ()) :
    connectToBridge w s = (.returned ⟨ip, some u⟩, emit (.connect ip (some u)) s1)
    ∧ effects s (connectToBridge w s).2 = effects s s1 ++ [.connect ip (some u)]
    ∧ (effects s s1 = [] ∨ effects s s1 = [.nupnpSearch])
    ∧ Effect.call "createUser" ∉ effects s (connectToBridge w s).2
    ∧ (effects s (connectToBridge w s).2).countP Effect.isRegistrationRequest = 0
    ∧ (effects s (connectToBridge w s).2).countP Effect.isAppend = 0
    ∧ (connectToBridge w s).2.dotenv = s.dotenv
    ∧ (connectToBridge w s).2.USERNAME = s.USERNAME := by
  have hres : connectToBridge w s
      = (.returned ⟨ip, some u⟩, emit (.connect ip (some u)) s1) := by
    simp [connectToBridge, hloc, hip, tryReuse, huser, haccept]
  obtain ⟨d1, hs1, hd1, -, -⟩ := locateBridge_run w s
  rw [hloc] at hs1 hd1
  simp only at hs1 hd1
  have hd : d1 = [] ∨ d1 = [.nupnpSearch] := by
    rcases hd1 with h | h | ⟨_, h⟩
    · exact Or.inl h
    · exact Or.inr h
    · simp only [Completion.returned.injEq] at h
      subst h
      simp [truthyStr] at hip
  have he1 : effects s s1 = d1 := effects_of_trace (by simp [hs1])
  have heff : effects s (connectToBridge w s).2 = d1 ++ [.connect ip (some u)] := by
    rw [hres]
    exact effects_of_trace (by simp [hs1])
  refine ⟨hres, by rw [heff, he1], by rw [he1]; exact hd, ?_, ?_, ?_, ?_, ?_⟩
  · rw [heff]
    rcases hd with h | h <;> subst h <;> simp
  · rw [heff]
    rcases hd with h | h <;> subst h <;> simp [Effect.isRegistrationRequest]
  · rw [heff]
    rcases hd with h | h <;> subst h <;> simp [Effect.isAppend]
  · rw [hres]
    simp [hs1]
  · rw [hres]
    simp [hs1]

theorem connectToBridge_reuses_accepted_credential_witness :
    locateBridge homeWorld (storedState "stored-user" [])
        = (.returned (some "192.168.1.2"), storedState "stored-user" [])
    ∧ truthyStr (some "192.168.1.2") = some "192.168.1.2"
    ∧ truthyStr (storedState "stored-user" []).USERNAME = some "stored-user"
    ∧ homeWorld.connect (storedState "stored-user" []).trace "192.168.1.2"
        (some "stored-user") = .ok ()
    ∧ connectToBridge homeWorld (storedState "stored-user" [])
        = (.returned ⟨"192.168.1.2", some "stored-user"⟩,
            emit (.connect "192.168.1.2" (some "stored-user")) (storedState "stored-user" []))
    ∧ Effect.call "createUser"
        ∉ effects (storedState "stored-user" [])
            (connectToBridge homeWorld (storedState "stored-user" [])).2 :=
  ⟨rfl, rfl, rfl, rfl,
    (connectToBridge_reuses_accepted_credential homeWorld (storedState "stored-user" [])
      (storedState "stored-user" []) (some "192.168.1.2") "192.168.1.2" "stored-user"
      rfl rfl rfl rfl).1,
    (connectToBridge_reuses_accepted_credential homeWorld (storedState "stored-user" [])
      (storedState "stored-user" []) (some "192.168.1.2") "192.168.1.2" "stored-user"
      rfl rfl rfl rfl).2.2.2.1⟩

/-- C6. When a fixed bridge address is configured (`BRIDGE_IP` is a non-empty string),
the expression `BRIDGE_IP || await discoverBridge()` yields exactly that address and
has no effect, whatever the discovery service would answer; and in a whole run of
`connectToBridge` and of `createUser` no discovery query is made and every call to a
bridge is sent to that address. -/
theorem locateBridge_fixed_address (w : World) (s : State) (ip : String)
    (hcfg : w.BRIDGE_IP = some ip) (hne : ip ≠ "") :
    locateBridge w s = (.returned (some ip), s)
    ∧ (effects s (connectToBridge w s).2).count .nupnpSearch = 0
    ∧ (effects s (createUser w s).2).count .nupnpSearch = 0
    ∧ (∀ e ∈ effects s (connectToBridge w s).2, ∀ a, e.address = some a → a = ip)
    ∧ (∀ e ∈ effects s (createUser w s).2, ∀ a, e.address = some a → a = ip) := by
  have hT : truthyStr w.BRIDGE_IP = some ip := by simp [truthyStr, hcfg, hne]
  obtain ⟨d, hd, -, -, -, -, -, hfix, -, -⟩ := connectToBridge_run w s
  obtain ⟨c, hc, -, -, -, -, -, hcfix, -⟩ := createUser_run w s
  rw [effects_of_trace hd, effects_of_trace hc]
  refine ⟨by simp [locateBridge, hT], (hfix ip hT).1, by simp [(hcfix ip hT).1],
    (hfix ip hT).2, ?_⟩
  intro e he a ha
  rcases List.mem_cons.1 he with h | h
  · subst h
    simp [Effect.address] at ha
  · exact (hcfix ip hT).2 e h a ha

theorem locateBridge_fixed_address_witness :
    homeWorld.BRIDGE_IP = some "192.168.1.2" ∧ "192.168.1.2" ≠ ""
    ∧ locateBridge homeWorld (freshState [])
        = (.returned (some "192.168.1.2"), freshState [])
    ∧ (effects (freshState []) (connectToBridge homeWorld (freshState [])).2).count
        .nupnpSearch = 0 :=
  ⟨rfl, by decide,
    (locateBridge_fixed_address homeWorld (freshState []) "192.168.1.2" rfl (by decide)).1,
    (locateBridge_fixed_address homeWorld (freshState []) "192.168.1.2" rfl (by decide)).2.1⟩

/-- C7. When no fixed bridge address is configured and the discovery query returns an
empty result set, `discoverBridge` yields no address (`null`) and `connectToBridge`
throws `Could not find a Hue Bridge`.  The only effects are the one discovery query
and the message of `discoverBridge`: no connection to a bridge is attempted and no
registration request is sent, whatever `USERNAME` holds. -/
theorem connectToBridge_no_bridge_found (w : World) (s : State)
    (hcfg : truthyStr w.BRIDGE_IP = none) (hempty : w.nupnpSearch s.trace = .ok []) :
    (discoverBridge w s).1 = .returned none
    ∧ (connectToBridge w s).1 = .threw (.plain "Could not find a Hue Bridge")
    ∧ effects s (connectToBridge w s).2
        = [.nupnpSearch, .consoleError "Failed to resolve any Hue Bridges"]
    ∧ (effects s (connectToBridge w s).2).count .nupnpSearch = 1
    ∧ (∀ a u, Effect.connect a u ∉ effects s (connectToBridge w s).2)
    ∧ (effects s (connectToBridge w s).2).countP Effect.isRegistrationRequest = 0
    ∧ (connectToBridge w s).2.USERNAME = s.USERNAME := by
  have heff : effects s (connectToBridge w s).2
      = [.nupnpSearch, .consoleError "Failed to resolve any Hue Bridges"] :=
    effects_of_trace (by
      simp [connectToBridge, locateBridge, discoverBridge, hcfg, hempty])
  rw [heff]
  refine ⟨by simp [discoverBridge, hempty],
    by simp [connectToBridge, locateBridge, discoverBridge, hcfg, hempty],
    rfl, by simp, by simp, by simp [Effect.isRegistrationRequest],
    by simp [connectToBridge, locateBridge, discoverBridge, hcfg, hempty]⟩

theorem connectToBridge_no_bridge_found_witness :
    truthyStr deadWorld.BRIDGE_IP = none
    ∧ deadWorld.nupnpSearch (storedState "stored-user" []).trace = .ok []
    ∧ (connectToBridge deadWorld (storedState "stored-user" [])).1
        = .threw (.plain "Could not find a Hue Bridge")
    ∧ effects (storedState "stored-user" [])
        (connectToBridge deadWorld (storedState "stored-user" [])).2
        = [.nupnpSearch, .consoleError "Failed to resolve any Hue Bridges"] :=
  ⟨rfl, rfl,
    (connectToBridge_no_bridge_found deadWorld (storedState "stored-user" []) rfl rfl).2.1,
    (connectToBridge_no_bridge_found deadWorld (storedState "stored-user" []) rfl rfl).2.2.1⟩

/-- C2. When the bridge has been located at `ip` and the stored credential is absent
or the connection attempt with it fails (with any error), `connectToBridge` enters its
Register step exactly once: `createUser` is invoked exactly once and at most one
registration request is sent.  Up to the entry there is at most one authenticated
connection (the reuse attempt) and none is retried: from the entry on there is at most
one more authenticated connection (the one opened with the new credential).  The call
ends by returning or throwing whatever the bridge answers; it can only stay pending
on the acknowledgment gate, when the operator types nothing. -/
theorem connectToBridge_registers_once (w : World) (s s1 : State) (v : Option String)
    (ip : String)
    (hloc : locateBridge w s = (.returned v, s1)) (hip : truthyStr v = some ip)
    (hfail : truthyStr s.USERNAME = none
      ∨ ∃ u e, truthyStr s.USERNAME = some u ∧ w.connect s1.trace ip (some u) = .error e) :
    (effects s (connectToBridge w s).2).count (.call "createUser") = 1
    ∧ (effects s (connectToBridge w s).2).countP Effect.isRegistrationRequest ≤ 1
    ∧ (effects s (tryReuse w ip s.USERNAME s1).2).countP Effect.isAuthenticatedConnect ≤ 1
    ∧ (effects (tryReuse w ip s.USERNAME s1).2 (connectToBridge w s).2).countP
        Effect.isAuthenticatedConnect ≤ 1
    ∧ (s.stdin ≠ [] → (connectToBridge w s).1 ≠ .pending) := by
  have hE := entersRegister_of_failure hloc hip hfail
  have hres := connectToBridge_of_entersRegister hE
  obtain ⟨pre, hs2, p1, p2, p3, -, -⟩ := entersRegister_state hE
  obtain ⟨dc, hdc, k1, k2, k3, -, -, -, -, k8⟩ :=
    connectCatch_run w ip (tryReuse w ip s.USERNAME s1).2
  have hpre : (tryReuse w ip s.USERNAME s1).2.trace = s.trace ++ pre := by rw [hs2]
  have hin : (tryReuse w ip s.USERNAME s1).2.stdin = s.stdin := by rw [hs2]
  have e1 : effects s (connectToBridge w s).2
      = pre ++ Effect.consoleWarn registerWarning :: Effect.call "createUser" :: dc :=
    effects_of_trace (by rw [hres, hdc, hpre]; simp)
  have e2 : effects s (tryReuse w ip s.USERNAME s1).2 = pre := effects_of_trace hpre
  have e3 : effects (tryReuse w ip s.USERNAME s1).2 (connectToBridge w s).2
      = Effect.consoleWarn registerWarning :: Effect.call "createUser" :: dc :=
    effects_of_trace (by rw [hres, hdc])
  rw [e1, e2, e3]
  refine ⟨by simp [p1, k1], by simp [p2, Effect.isRegistrationRequest]; omega, p3,
    by simp [Effect.isAuthenticatedConnect]; omega, ?_⟩
  intro hne hp
  rw [hres] at hp
  exact hne (hin ▸ k8 hp)

theorem connectToBridge_registers_once_witness :
    locateBridge homeWorld (storedState "stale-user" [])
        = (.returned (some "192.168.1.2"), storedState "stale-user" [])
    ∧ truthyStr (some "192.168.1.2") = some "192.168.1.2"
    ∧ (truthyStr (storedState "stale-user" []).USERNAME = none
        ∨ ∃ u e, truthyStr (storedState "stale-user" []).USERNAME = some u
            ∧ homeWorld.connect (storedState "stale-user" []).trace "192.168.1.2" (some u)
                = .error e)
    ∧ (effects (storedState "stale-user" [])
        (connectToBridge homeWorld (storedState "stale-user" [])).2).count
          (.call "createUser") = 1
    ∧ (effects (storedState "stale-user" [])
        (connectToBridge homeWorld (storedState "stale-user" [])).2).countP
          Effect.isRegistrationRequest ≤ 1 :=
  ⟨rfl, rfl, Or.inr ⟨"stale-user", .api 1 "unauthorized user", rfl, rfl⟩,
    (connectToBridge_registers_once homeWorld (storedState "stale-user" [])
      (storedState "stale-user" []) (some "192.168.1.2") "192.168.1.2" rfl rfl
      (Or.inr ⟨"stale-user", .api 1 "unauthorized user", rfl, rfl⟩)).1,
    (connectToBridge_registers_once homeWorld (storedState "stale-user" [])
      (storedState "stale-user" []) (some "192.168.1.2") "192.168.1.2" rfl rfl
      (Or.inr ⟨"stale-user", .api 1 "unauthorized user", rfl, rfl⟩)).2.1⟩

/-- C3, as the code has it.  When the registration request of `createUser` is answered
with the credential `u` and the append to `.env` succeeds, `createUser` returns `u`, the
variable `USERNAME` becomes `u`, and `.env` receives exactly one append, the text of a
new line `HUE_USERNAME=u` (no other write is made).  When `u` is not the empty string,
the next and last effect of the enclosing `connectToBridge` is the connection to the
located bridge opened with `u`, and the call returns that connection when the bridge
accepts it. -/
theorem createUser_success_persists_once (w : World) (s : State) (ip u : String)
    (hreg : RegistrationStored w s ip u) :
    (createUser w s).1 = .returned (some u)
    ∧ (createUser w s).2.USERNAME = some u
    ∧ (createUser w s).2.dotenv = s.dotenv ++ ("\nHUE_USERNAME=" ++ u)
    ∧ (effects s (createUser w s).2).filter Effect.isAppend
        = [.appendFileSync ".env" ("\nHUE_USERNAME=" ++ u)]
    ∧ (∀ s0 ip0 s2, EntersRegister w s0 ip0 s2 →
        s = emit (.consoleWarn registerWarning) s2 → u ≠ "" →
        effects (createUser w s).2 (connectToBridge w s0).2 = [.connect ip0 (some u)]
        ∧ (w.connect (createUser w s).2.trace ip0 (some u) = .ok () →
            (connectToBridge w s0).1 = .returned ⟨ip0, some u⟩)
        ∧ (∀ e, w.connect (createUser w s).2.trace ip0 (some u) = .error e →
            (connectToBridge w s0).1 = .threw e)) := by
  obtain ⟨d1, hd1, hc⟩ := createUser_answer_ok hreg
  have heff : effects s (createUser w s).2
      = Effect.call "createUser" :: (d1 ++ [.connect ip none,
          .usersCreateUser ⟨ip, none⟩ appName deviceName,
          .consoleLog ("Created user: " ++ u),
          .appendFileSync ".env" ("\nHUE_USERNAME=" ++ u)]) :=
    effects_of_trace (by rw [hc])
  refine ⟨by rw [hc], by rw [hc], by rw [hc], ?_, ?_⟩
  · rw [heff]
    rcases hd1 with h | h <;> subst h <;> simp [Effect.isAppend]
  · intro s0 ip0 s2 hE hs hu
    have hres := connectToBridge_of_entersRegister hE
    have hT : truthyStr (some u) = some u := by simp [truthyStr, hu]
    have hcc : connectCatch w ip0 s2
        = (match w.connect (createUser w s).2.trace ip0 (some u) with
            | .ok _ => .returned ⟨ip0, some u⟩
            | .error e => .threw e, emit (.connect ip0 (some u)) (createUser w s).2) := by
      simp only [connectCatch]
      rw [← hs, hc]
      simp only [hT]
      rcases w.connect _ ip0 (some u) with e | x <;> rfl
    rw [hres, hcc]
    refine ⟨effects_of_trace (by simp), ?_, ?_⟩
    · intro h
      rw [h]
    · intro e h
      rw [h]

theorem createUser_success_persists_once_witness :
    RegistrationStored homeWorld staleAtRegister "192.168.1.2" "new-user"
    ∧ EntersRegister homeWorld (storedState "stale-user" []) "192.168.1.2"
        (emit (.connect "192.168.1.2" (some "stale-user")) (storedState "stale-user" []))
    ∧ (createUser homeWorld staleAtRegister).1 = .returned (some "new-user")
    ∧ (createUser homeWorld staleAtRegister).2.USERNAME = some "new-user"
    ∧ (effects staleAtRegister (createUser homeWorld staleAtRegister).2).filter Effect.isAppend
        = [.appendFileSync ".env" "\nHUE_USERNAME=new-user"]
    ∧ effects (createUser homeWorld staleAtRegister).2
        (connectToBridge homeWorld (storedState "stale-user" [])).2
        = [.connect "192.168.1.2" (some "new-user")] :=
  ⟨⟨_, _, rfl, rfl, rfl, rfl, rfl⟩, ⟨_, _, _, rfl, rfl, rfl⟩,
    (createUser_success_persists_once homeWorld staleAtRegister "192.168.1.2" "new-user"
      ⟨_, _, rfl, rfl, rfl, rfl, rfl⟩).1,
    (createUser_success_persists_once homeWorld staleAtRegister "192.168.1.2" "new-user"
      ⟨_, _, rfl, rfl, rfl, rfl, rfl⟩).2.1,
    (createUser_success_persists_once homeWorld staleAtRegister "192.168.1.2" "new-user"
      ⟨_, _, rfl, rfl, rfl, rfl, rfl⟩).2.2.2.1,
    ((createUser_success_persists_once homeWorld staleAtRegister "192.168.1.2" "new-user"
      ⟨_, _, rfl, rfl, rfl, rfl, rfl⟩).2.2.2.2 (storedState "stale-user" []) "192.168.1.2"
        (emit (.connect "192.168.1.2" (some "stale-user")) (storedState "stale-user" []))
        ⟨_, _, _, rfl, rfl, rfl⟩ rfl (by decide)).1⟩

/-- C3 fails as stated.  In `readOnlyWorld` the bridge answers the registration request
with the credential "new-user", but the append of line 45 fails inside the `try`: the
`catch` of line 50 calls `getHueErrorType` on the file-system error, so `createUser`
throws a `TypeError`, `USERNAME` still holds the old credential, `.env` is as it was,
and the enclosing `connectToBridge` never opens a connection with the new credential.
In `blankCredentialWorld` the registration succeeds with the empty string and the
append succeeds: `createUser` returns it, line 83 finds it falsy, and `connectToBridge`
throws `Could not create a new Hue Bridge user` without opening a connection
with it. -/
theorem createUser_success_not_always_stored :
    (RegistrationAnswered readOnlyWorld staleAtRegister "192.168.1.2" (.ok ⟨"new-user"⟩)
      ∧ (createUser readOnlyWorld staleAtRegister).1
          = .threw (.typeError "err.getHueErrorType is not a function")
      ∧ (createUser readOnlyWorld staleAtRegister).2.USERNAME = some "stale-user"
      ∧ (createUser readOnlyWorld staleAtRegister).2.dotenv = staleAtRegister.dotenv
      ∧ (connectToBridge readOnlyWorld (storedState "stale-user" [])).1
          = .threw (.typeError "err.getHueErrorType is not a function")
      ∧ Effect.connect "192.168.1.2" (some "new-user")
          ∉ effects (storedState "stale-user" [])
              (connectToBridge readOnlyWorld (storedState "stale-user" [])).2)
    ∧ (RegistrationStored blankCredentialWorld staleAtRegister "192.168.1.2" ""
      ∧ EntersRegister blankCredentialWorld (storedState "stale-user" []) "192.168.1.2"
          (emit (.connect "192.168.1.2" (some "stale-user")) (storedState "stale-user" []))
      ∧ (createUser blankCredentialWorld staleAtRegister).1 = .returned (some "")
      ∧ (connectToBridge blankCredentialWorld (storedState "stale-user" [])).1
          = .threw (.plain "Could not create a new Hue Bridge user")
      ∧ Effect.connect "192.168.1.2" (some "")
          ∉ effects (storedState "stale-user" [])
              (connectToBridge blankCredentialWorld (storedState "stale-user" [])).2) :=
  ⟨⟨⟨_, _, rfl, rfl, rfl, rfl⟩, rfl, rfl, rfl, rfl, by decide⟩,
    ⟨_, _, rfl, rfl, rfl, rfl, rfl⟩, ⟨_, _, _, rfl, rfl, rfl⟩, rfl, rfl, by decide⟩

/-- C4. When the registration request of `createUser` is answered with a Hue error of
type `t`, the effects of `createUser` are, in this order: its entry, the location of
the bridge, the unauthenticated connection, the registration request, the message, and
the prompt of the acknowledgment gate.  For `t = 101` (link button not pressed) the
message is the dedicated link-button message and no `Unexpected error creating user`
message is written; for every other type it is the generic message with the raw error
text and the link-button message is not written.  Nothing is appended to `.env` and
`USERNAME` is unchanged.  The gate is awaited exactly once: its prompt is written once,
one line of input is consumed, and while the operator types nothing the call stays
pending.  `createUser` never returns a credential: once the operator has acknowledged
it returns `null`, and an enclosing `connectToBridge` returns no session. -/
theorem createUser_link_button_not_pressed (w : World) (s : State) (ip : String) (t : Int)
    (msg : String) (hreg : RegistrationAnswered w s ip (.error (.api t msg))) :
    (∃ loc, (loc = [] ∨ loc = [.nupnpSearch])
        ∧ effects s (createUser w s).2
          = Effect.call "createUser" :: (loc ++ [.connect ip none,
              .usersCreateUser ⟨ip, none⟩ appName deviceName]) ++ catchOutput t msg)
    ∧ (t = 101 → Effect.consoleError linkButtonMessage ∈ effects s (createUser w s).2
        ∧ ∀ m, Effect.consoleError ("Unexpected error creating user: " ++ m)
            ∉ effects s (createUser w s).2)
    ∧ (t ≠ 101 → Effect.consoleError ("Unexpected error creating user: " ++ msg)
            ∈ effects s (createUser w s).2
        ∧ Effect.consoleError linkButtonMessage ∉ effects s (createUser w s).2)
    ∧ (effects s (createUser w s).2).countP Effect.isAppend = 0
    ∧ (createUser w s).2.dotenv = s.dotenv
    ∧ (createUser w s).2.USERNAME = s.USERNAME
    ∧ (effects s (createUser w s).2).count (.question pressAnyKey) = 1
    ∧ (createUser w s).2.stdin = s.stdin.tail
    ∧ (s.stdin = [] → (createUser w s).1 = .pending)
    ∧ (s.stdin ≠ [] → (createUser w s).1 = .returned none)
    ∧ (∀ u, (createUser w s).1 ≠ .returned (some u))
    ∧ (∀ s0 ip0 s2, EntersRegister w s0 ip0 s2 →
        s = emit (.consoleWarn registerWarning) s2 →
        ∀ api, (connectToBridge w s0).1 ≠ .returned api) := by
  obtain ⟨d1, hd1, hc⟩ := createUser_answer_api hreg
  have heff : effects s (createUser w s).2
      = Effect.call "createUser" :: (d1 ++ [.connect ip none,
          .usersCreateUser ⟨ip, none⟩ appName deviceName]) ++ catchOutput t msg :=
    effects_of_trace (by rw [hc])
  refine ⟨⟨d1, hd1, heff⟩, ?_, ?_, ?_, by rw [hc], by rw [hc], ?_, by rw [hc], ?_, ?_, ?_, ?_⟩
  · intro ht
    rw [heff]
    rcases hd1 with h | h <;> subst h <;> simp [catchOutput, ht] <;>
      exact fun m => generic_ne_linkButtonMessage m
  · intro ht
    rw [heff]
    rcases hd1 with h | h <;> subst h <;> simp [catchOutput, ht] <;>
      exact fun h => generic_ne_linkButtonMessage msg h.symm
  · rw [heff]
    by_cases ht : t = 101 <;> rcases hd1 with h | h <;> subst h <;>
      simp [catchOutput, ht, Effect.isAppend]
  · rw [heff]
    by_cases ht : t = 101 <;> rcases hd1 with h | h <;> subst h <;>
      simp [catchOutput, ht]
  · intro hI
    rw [hc]
    simp [hI]
  · intro hne
    rw [hc]
    simp [hne]
  · intro u
    rw [hc]
    by_cases hI : s.stdin = [] <;> simp [hI]
  · intro s0 ip0 s2 hE hs api
    subst hs
    obtain ⟨d2, -, hcc⟩ := connectCatch_answer_api hreg ip0
    rw [connectToBridge_of_entersRegister hE, hcc]
    by_cases hI : s2.stdin = [] <;> simp [hI]

theorem createUser_link_button_not_pressed_witness :
    RegistrationAnswered linkWorld freshAtRegister "10.0.0.5"
        (.error (.api 101 "link button not pressed"))
    ∧ RegistrationAnswered linkWorld silentAtRegister "10.0.0.5"
        (.error (.api 101 "link button not pressed"))
    ∧ freshAtRegister.stdin = ["x"] ∧ silentAtRegister.stdin = []
    ∧ Effect.consoleError linkButtonMessage
        ∈ effects freshAtRegister (createUser linkWorld freshAtRegister).2
    ∧ (effects freshAtRegister (createUser linkWorld freshAtRegister).2).countP
        Effect.isAppend = 0
    ∧ (effects freshAtRegister (createUser linkWorld freshAtRegister).2).count
        (.question pressAnyKey) = 1
    ∧ (createUser linkWorld freshAtRegister).2.stdin = []
    ∧ (createUser linkWorld freshAtRegister).1 = .returned none
    ∧ (createUser linkWorld silentAtRegister).1 = .pending
    ∧ (∀ api, (connectToBridge linkWorld (freshState ["x"])).1 ≠ .returned api) :=
  ⟨⟨_, _, rfl, rfl, rfl, rfl⟩, ⟨_, _, rfl, rfl, rfl, rfl⟩, rfl, rfl,
    ((createUser_link_button_not_pressed linkWorld freshAtRegister "10.0.0.5" 101
      "link button not pressed" ⟨_, _, rfl, rfl, rfl, rfl⟩).2.1 rfl).1,
    (createUser_link_button_not_pressed linkWorld freshAtRegister "10.0.0.5" 101
      "link button not pressed" ⟨_, _, rfl, rfl, rfl, rfl⟩).2.2.2.1,
    (createUser_link_button_not_pressed linkWorld freshAtRegister "10.0.0.5" 101
      "link button not pressed" ⟨_, _, rfl, rfl, rfl, rfl⟩).2.2.2.2.2.2.1,
    (createUser_link_button_not_pressed linkWorld freshAtRegister "10.0.0.5" 101
      "link button not pressed" ⟨_, _, rfl, rfl, rfl, rfl⟩).2.2.2.2.2.2.2.1,
    (createUser_link_button_not_pressed linkWorld freshAtRegister "10.0.0.5" 101
      "link button not pressed" ⟨_, _, rfl, rfl, rfl, rfl⟩).2.2.2.2.2.2.2.2.2.1 (by decide),
    (createUser_link_button_not_pressed linkWorld silentAtRegister "10.0.0.5" 101
      "link button not pressed" ⟨_, _, rfl, rfl, rfl, rfl⟩).2.2.2.2.2.2.2.2.1 rfl,
    (createUser_link_button_not_pressed linkWorld freshAtRegister "10.0.0.5" 101
      "link button not pressed" ⟨_, _, rfl, rfl, rfl, rfl⟩).2.2.2.2.2.2.2.2.2.2.2
      (freshState ["x"]) "10.0.0.5" (emit .nupnpSearch (freshState ["x"]))
      ⟨_, _, _, rfl, rfl, rfl⟩ rfl⟩

/-- C5, as the code has it.  Let `connectToBridge` enter Register.

When the registration request is answered with a Hue API error of type `t` (an error
that has `getHueErrorType`), the effects from the entry on are the warning, the entry
into `createUser`, its location of the bridge, the unauthenticated connection, the
request, the message and the prompt of the gate.  For `t` other than 101 the message is
the raw error text, as `Unexpected error creating user: <message>`, and the link-button
message is not written; for `t = 101` the link-button message is written in its place
and no generic message is.  The gate is awaited exactly once (one prompt, one line of
input consumed, the call pending while the operator types nothing), nothing is retried
(one invocation of `createUser`, one registration request), no session is returned,
and once the operator has acknowledged the call throws
`Could not create a new Hue Bridge user`.

When `createUser` fails before it sends the request, because its own discovery query
rejects, or finds no bridge (line 36), or because the unauthenticated connection of
line 39 fails, that error is what `connectToBridge` throws: no registration request is
sent, the gate is not awaited and no input is consumed. -/
theorem connectToBridge_registration_hue_error (w : World) (s s2 : State) (ip0 : String)
    (henter : EntersRegister w s ip0 s2) :
    (∀ ip t msg,
      RegistrationAnswered w (emit (.consoleWarn registerWarning) s2) ip
        (.error (.api t msg)) →
      (∃ loc, (loc = [] ∨ loc = [.nupnpSearch])
        ∧ effects s2 (connectToBridge w s).2
          = Effect.consoleWarn registerWarning :: Effect.call "createUser"
              :: (loc ++ [.connect ip none, .usersCreateUser ⟨ip, none⟩ appName deviceName])
              ++ catchOutput t msg)
      ∧ (t ≠ 101 → Effect.consoleError ("Unexpected error creating user: " ++ msg)
            ∈ effects s (connectToBridge w s).2
          ∧ Effect.consoleError linkButtonMessage ∉ effects s (connectToBridge w s).2)
      ∧ (t = 101 → Effect.consoleError linkButtonMessage ∈ effects s (connectToBridge w s).2
          ∧ ∀ m, Effect.consoleError ("Unexpected error creating user: " ++ m)
              ∉ effects s (connectToBridge w s).2)
      ∧ (effects s (connectToBridge w s).2).count (.question pressAnyKey) = 1
      ∧ (effects s (connectToBridge w s).2).count (.call "createUser") = 1
      ∧ (effects s (connectToBridge w s).2).countP Effect.isRegistrationRequest = 1
      ∧ (connectToBridge w s).2.stdin = s.stdin.tail
      ∧ (s.stdin = [] → (connectToBridge w s).1 = .pending)
      ∧ (s.stdin ≠ [] → (connectToBridge w s).1
          = .threw (.plain "Could not create a new Hue Bridge user"))
      ∧ (∀ api, (connectToBridge w s).1 ≠ .returned api))
    ∧ (∀ e s3,
      locateBridge w (emit (.call "createUser") (emit (.consoleWarn registerWarning) s2))
        = (.threw e, s3) →
      connectToBridge w s = (.threw e, s3)
      ∧ (effects s (connectToBridge w s).2).countP Effect.isRegistrationRequest = 0
      ∧ (effects s (connectToBridge w s).2).count (.question pressAnyKey) = 0
      ∧ (connectToBridge w s).2.stdin = s.stdin)
    ∧ (∀ v s3,
      locateBridge w (emit (.call "createUser") (emit (.consoleWarn registerWarning) s2))
        = (.returned v, s3) →
      truthyStr v = none →
      connectToBridge w s = (.threw (.plain "Could not find a Hue Bridge"), s3)
      ∧ (effects s (connectToBridge w s).2).countP Effect.isRegistrationRequest = 0
      ∧ (effects s (connectToBridge w s).2).count (.question pressAnyKey) = 0
      ∧ (connectToBridge w s).2.stdin = s.stdin)
    ∧ (∀ v s3 ip e,
      locateBridge w (emit (.call "createUser") (emit (.consoleWarn registerWarning) s2))
        = (.returned v, s3) →
      truthyStr v = some ip → w.connect s3.trace ip none = .error e →
      connectToBridge w s = (.threw e, emit (.connect ip none) s3)
      ∧ (effects s (connectToBridge w s).2).countP Effect.isRegistrationRequest = 0
      ∧ (effects s (connectToBridge w s).2).count (.question pressAnyKey) = 0
      ∧ (connectToBridge w s).2.stdin = s.stdin) := by
  obtain ⟨pre, hs2, p1, p2, -, p4, -, ptext⟩ := entersRegister_state henter
  have hres := connectToBridge_of_entersRegister henter
  have hin : s2.stdin = s.stdin := by rw [hs2]
  have hpre : s2.trace = s.trace ++ pre := by rw [hs2]
  have hpreErr : ∀ x, Effect.consoleError x ∉ pre := by
    intro x hx
    have := ptext _ hx
    simp [Effect.text] at this
  have hquiet : ∀ (r : Completion (Option String)) (s3 : State),
      locateBridge w (emit (.call "createUser") (emit (.consoleWarn registerWarning) s2))
        = (r, s3) →
      ∃ d, s3.trace = s.trace ++ (pre ++ Effect.consoleWarn registerWarning
            :: Effect.call "createUser" :: d)
        ∧ d.countP Effect.isRegistrationRequest = 0
        ∧ d.count (.question pressAnyKey) = 0
        ∧ s3.stdin = s.stdin := by
    intro r s3 hL
    obtain ⟨d, hd, hshape, -, -⟩ := locateBridge_run w
      (emit (.call "createUser") (emit (.consoleWarn registerWarning) s2))
    rw [hL] at hd
    simp only at hd
    refine ⟨d, by rw [hd]; simp [hpre], ?_, ?_, by rw [hd]; simp [hin]⟩
    · rcases hshape with h | h | ⟨h, _⟩ <;> subst h <;> simp [Effect.isRegistrationRequest]
    · rcases hshape with h | h | ⟨h, _⟩ <;> subst h <;> simp
  refine ⟨?_, ?_, ?_, ?_⟩
  · intro ip t msg hreg
    obtain ⟨d1, hd1, hcc⟩ := connectCatch_answer_api hreg ip0
    have heff2 : effects s2 (connectToBridge w s).2
        = Effect.consoleWarn registerWarning :: Effect.call "createUser"
            :: (d1 ++ [.connect ip none, .usersCreateUser ⟨ip, none⟩ appName deviceName])
            ++ catchOutput t msg :=
      effects_of_trace (by rw [hres, hcc])
    have heff : effects s (connectToBridge w s).2
        = pre ++ (Effect.consoleWarn registerWarning :: Effect.call "createUser"
            :: (d1 ++ [.connect ip none, .usersCreateUser ⟨ip, none⟩ appName deviceName])
            ++ catchOutput t msg) :=
      effects_of_trace (by rw [hres, hcc, hs2]; simp)
    have hq : (catchOutput t msg).count (.question pressAnyKey) = 1
        ∧ (catchOutput t msg).count (.call "createUser") = 0
        ∧ (catchOutput t msg).countP Effect.isRegistrationRequest = 0 := by
      by_cases ht : t = 101 <;> simp [catchOutput, ht, Effect.isRegistrationRequest]
    refine ⟨⟨d1, hd1, heff2⟩, ?_, ?_, ?_, ?_, ?_, ?_, ?_, ?_, ?_⟩
    · intro ht
      rw [heff]
      rcases hd1 with h | h <;> subst h <;> simp [catchOutput, ht, hpreErr] <;>
        exact fun h => generic_ne_linkButtonMessage msg h.symm
    · intro ht
      rw [heff]
      rcases hd1 with h | h <;> subst h <;> simp [catchOutput, ht, hpreErr] <;>
        exact fun m => generic_ne_linkButtonMessage m
    · rw [heff]
      rcases hd1 with h | h <;> subst h <;> simp [p4, hq.1]
    · rw [heff]
      rcases hd1 with h | h <;> subst h <;> simp [p1, hq.2.1]
    · rw [heff]
      rcases hd1 with h | h <;> subst h <;>
        simp [p2, hq.2.2, Effect.isRegistrationRequest]
    · rw [hres, hcc]
      simp [hin]
    · intro hI
      rw [hres, hcc]
      simp [hin, hI]
    · intro hne
      rw [hres, hcc]
      simp [hin, hne]
    · intro api
      rw [hres, hcc]
      by_cases hI : s2.stdin = [] <;> simp [hI]
  · intro e s3 hL
    obtain ⟨d, hd, hr, hq, hi⟩ := hquiet _ _ hL
    have hrun : connectToBridge w s = (.threw e, s3) := by
      rw [hres]
      simp only [connectCatch, createUser]
      rw [hL]
    rw [hrun, effects_of_trace hd]
    exact ⟨rfl, by simp [p2, hr, Effect.isRegistrationRequest], by simp [p4, hq], hi⟩
  · intro v s3 hL hT
    obtain ⟨d, hd, hr, hq, hi⟩ := hquiet _ _ hL
    have hrun : connectToBridge w s
        = (.threw (.plain "Could not find a Hue Bridge"), s3) := by
      rw [hres]
      simp only [connectCatch, createUser]
      rw [hL]
      simp only [hT]
    rw [hrun, effects_of_trace hd]
    exact ⟨rfl, by simp [p2, hr, Effect.isRegistrationRequest], by simp [p4, hq], hi⟩
  · intro v s3 ip e hL hT hC
    obtain ⟨d, hd, hr, hq, hi⟩ := hquiet _ _ hL
    have hrun : connectToBridge w s = (.threw e, emit (.connect ip none) s3) := by
      rw [hres]
      simp only [connectCatch, createUser]
      rw [hL]
      simp only [hT, hC]
    rw [hrun, effects_of_trace (d := pre ++ Effect.consoleWarn registerWarning
      :: Effect.call "createUser" :: (d ++ [.connect ip none])) (by simp [hd])]
    exact ⟨rfl, by simp [p2, hr, Effect.isRegistrationRequest], by simp [p4, hq],
      by simp [hi]⟩

theorem connectToBridge_registration_hue_error_witness :
    EntersRegister invalidValueWorld (storedState "stale-user" ["x"]) "192.168.1.2"
        (emit (.connect "192.168.1.2" (some "stale-user")) (storedState "stale-user" ["x"]))
    ∧ RegistrationAnswered invalidValueWorld
        (emit (.consoleWarn registerWarning)
          (emit (.connect "192.168.1.2" (some "stale-user")) (storedState "stale-user" ["x"])))
        "192.168.1.2" (.error (.api 7 "invalid value"))
    ∧ Effect.consoleError "Unexpected error creating user: invalid value"
        ∈ effects (storedState "stale-user" ["x"])
            (connectToBridge invalidValueWorld (storedState "stale-user" ["x"])).2
    ∧ (connectToBridge invalidValueWorld (storedState "stale-user" ["x"])).2.stdin = []
    ∧ (connectToBridge invalidValueWorld (storedState "stale-user" ["x"])).1
        = .threw (.plain "Could not create a new Hue Bridge user")
    ∧ EntersRegister linkWorld (freshState []) "10.0.0.5" (emit .nupnpSearch (freshState []))
    ∧ RegistrationAnswered linkWorld silentAtRegister "10.0.0.5"
        (.error (.api 101 "link button not pressed"))
    ∧ (connectToBridge linkWorld (freshState [])).1 = .pending
    ∧ EntersRegister vanishingWorld (freshState ["x"]) "10.0.0.5"
        (emit .nupnpSearch (freshState ["x"]))
    ∧ connectToBridge vanishingWorld (freshState ["x"])
        = (.threw (.plain "Could not find a Hue Bridge"),
            emit (.consoleError "Failed to resolve any Hue Bridges")
              (emit .nupnpSearch (emit (.call "createUser") freshAtRegister)))
    ∧ EntersRegister unreachableWorld (storedState "stored-user" ["x"]) "192.168.1.2"
        (emit (.connect "192.168.1.2" (some "stored-user")) (storedState "stored-user" ["x"]))
    ∧ connectToBridge unreachableWorld (storedState "stored-user" ["x"])
        = (.threw (.plain "connect EHOSTUNREACH 192.168.1.2:443"),
            emit (.connect "192.168.1.2" none)
              (emit (.call "createUser") (emit (.consoleWarn registerWarning)
                (emit (.connect "192.168.1.2" (some "stored-user"))
                  (storedState "stored-user" ["x"]))))) :=
  ⟨⟨_, _, _, rfl, rfl, rfl⟩, ⟨_, _, rfl, rfl, rfl, rfl⟩,
    (((connectToBridge_registration_hue_error invalidValueWorld
      (storedState "stale-user" ["x"])
      (emit (.connect "192.168.1.2" (some "stale-user")) (storedState "stale-user" ["x"]))
      "192.168.1.2" ⟨_, _, _, rfl, rfl, rfl⟩).1 "192.168.1.2" 7 "invalid value"
      ⟨_, _, rfl, rfl, rfl, rfl⟩).2.1 (by decide)).1,
    ((connectToBridge_registration_hue_error invalidValueWorld
      (storedState "stale-user" ["x"])
      (emit (.connect "192.168.1.2" (some "stale-user")) (storedState "stale-user" ["x"]))
      "192.168.1.2" ⟨_, _, _, rfl, rfl, rfl⟩).1 "192.168.1.2" 7 "invalid value"
      ⟨_, _, rfl, rfl, rfl, rfl⟩).2.2.2.2.2.2.1,
    ((connectToBridge_registration_hue_error invalidValueWorld
      (storedState "stale-user" ["x"])
      (emit (.connect "192.168.1.2" (some "stale-user")) (storedState "stale-user" ["x"]))
      "192.168.1.2" ⟨_, _, _, rfl, rfl, rfl⟩).1 "192.168.1.2" 7 "invalid value"
      ⟨_, _, rfl, rfl, rfl, rfl⟩).2.2.2.2.2.2.2.2.1 (by decide),
    ⟨_, _, _, rfl, rfl, rfl⟩, ⟨_, _, rfl, rfl, rfl, rfl⟩,
    ((connectToBridge_registration_hue_error linkWorld (freshState [])
      (emit .nupnpSearch (freshState [])) "10.0.0.5" ⟨_, _, _, rfl, rfl, rfl⟩).1
      "10.0.0.5" 101 "link button not pressed" ⟨_, _, rfl, rfl, rfl, rfl⟩).2.2.2.2.2.2.2.1 rfl,
    ⟨_, _, _, rfl, rfl, rfl⟩,
    ((connectToBridge_registration_hue_error vanishingWorld (freshState ["x"])
      (emit .nupnpSearch (freshState ["x"])) "10.0.0.5" ⟨_, _, _, rfl, rfl, rfl⟩).2.2.1
      none _ rfl rfl).1,
    ⟨_, _, _, rfl, rfl, rfl⟩,
    ((connectToBridge_registration_hue_error unreachableWorld (storedState "stored-user" ["x"])
      (emit (.connect "192.168.1.2" (some "stored-user")) (storedState "stored-user" ["x"]))
      "192.168.1.2" ⟨_, _, _, rfl, rfl, rfl⟩).2.2.2
      (some "192.168.1.2") _ "192.168.1.2" (.plain "connect EHOSTUNREACH 192.168.1.2:443")
      rfl rfl rfl).1⟩

/-- C5 fails as stated, in four ways.  In `linkWorld` the registration request is
answered with the Hue error of type 101 whose message is "link button not pressed":
`connectToBridge` enters Register, and nothing it writes to the console mentions that
raw message.  In `offlineWorld` the request is answered with a plain error: the call
throws a `TypeError` in place of the provisioning failure, writes nothing that mentions
the raw message, and does not await the gate (the input line is still unread).  In
`unreachableWorld` the unauthenticated connection of line 39 fails, and in
`vanishingWorld` the second discovery finds no bridge (line 36): registration yields
no credential, and `connectToBridge` throws that error, not the provisioning failure,
with no message from `createUser` and no gate. -/
theorem connectToBridge_raw_message_not_printed :
    (EntersRegister linkWorld (freshState ["x"]) "10.0.0.5" (emit .nupnpSearch (freshState ["x"]))
      ∧ RegistrationAnswered linkWorld freshAtRegister "10.0.0.5"
          (.error (.api 101 "link button not pressed"))
      ∧ ¬ ∃ e ∈ effects (freshState ["x"]) (connectToBridge linkWorld (freshState ["x"])).2,
          e.mentions "link button not pressed" = true)
    ∧ (EntersRegister offlineWorld (freshState ["x"]) "10.0.0.5"
          (emit .nupnpSearch (freshState ["x"]))
      ∧ RegistrationAnswered offlineWorld freshAtRegister "10.0.0.5"
          (.error (.plain "connect ETIMEDOUT 10.0.0.5:443"))
      ∧ (connectToBridge offlineWorld (freshState ["x"])).1
          = .threw (.typeError "err.getHueErrorType is not a function")
      ∧ (¬ ∃ e ∈ effects (freshState ["x"])
            (connectToBridge offlineWorld (freshState ["x"])).2,
          e.mentions "connect ETIMEDOUT 10.0.0.5:443" = true)
      ∧ (effects (freshState ["x"]) (connectToBridge offlineWorld (freshState ["x"])).2).count
          (.question pressAnyKey) = 0
      ∧ (connectToBridge offlineWorld (freshState ["x"])).2.stdin = ["x"])
    ∧ (EntersRegister unreachableWorld (storedState "stored-user" ["x"]) "192.168.1.2"
          (emit (.connect "192.168.1.2" (some "stored-user"))
            (storedState "stored-user" ["x"]))
      ∧ (connectToBridge unreachableWorld (storedState "stored-user" ["x"])).1
          = .threw (.plain "connect EHOSTUNREACH 192.168.1.2:443")
      ∧ (¬ ∃ e ∈ effects (storedState "stored-user" ["x"])
            (connectToBridge unreachableWorld (storedState "stored-user" ["x"])).2,
          e.mentions "connect EHOSTUNREACH 192.168.1.2:443" = true)
      ∧ (effects (storedState "stored-user" ["x"])
          (connectToBridge unreachableWorld (storedState "stored-user" ["x"])).2).count
            (.question pressAnyKey) = 0)
    ∧ (EntersRegister vanishingWorld (freshState ["x"]) "10.0.0.5"
          (emit .nupnpSearch (freshState ["x"]))
      ∧ (connectToBridge vanishingWorld (freshState ["x"])).1
          = .threw (.plain "Could not find a Hue Bridge")
      ∧ (effects (freshState ["x"]) (connectToBridge vanishingWorld (freshState ["x"])).2).count
          (.question pressAnyKey) = 0) :=
  ⟨⟨⟨_, _, _, rfl, rfl, rfl⟩, ⟨_, _, rfl, rfl, rfl, rfl⟩, by decide⟩,
    ⟨⟨_, _, _, rfl, rfl, rfl⟩, ⟨_, _, rfl, rfl, rfl, rfl⟩, rfl, by decide, by decide, rfl⟩,
    ⟨⟨_, _, _, rfl, rfl, rfl⟩, rfl, by decide, by decide⟩,
    ⟨⟨_, _, _, rfl, rfl, rfl⟩, rfl, by decide⟩⟩

/-- C8. Let `connectToBridge` return the session `api` and the bridge list `lights`.
When no light of the list has the id `lightId` under `===` (as is always so for `NaN`),
`turnOnLight` and `turnOffLight` report `Invalid light ID: <id>` on the console and make
no mutating call: `setLightState` is never invoked, and after the acknowledgment the
functions return without throwing.  When a light of the list has that id,
`setLightState` is invoked exactly once, with that id. -/
theorem turnOnOff_checks_light_id (w : World) (s s1 : State) (api : Api)
    (lights : List Light) (lightId : JsNum)
    (hconn : connectToBridge w s = (.returned api, s1))
    (hlist : w.getAll s1.trace api = .ok lights) :
    ((∀ l ∈ lights, l.id.strictEq lightId = false) →
        Effect.consoleError ("Invalid light ID: " ++ lightId.toStr)
            ∈ effects s (turnOnLight w lightId s).2
        ∧ (effects s (turnOnLight w lightId s).2).countP Effect.isSetLightState = 0
        ∧ (s1.stdin ≠ [] → (turnOnLight w lightId s).1 = .returned ())
        ∧ Effect.consoleError ("Invalid light ID: " ++ lightId.toStr)
            ∈ effects s (turnOffLight w lightId s).2
        ∧ (effects s (turnOffLight w lightId s).2).countP Effect.isSetLightState = 0
        ∧ (s1.stdin ≠ [] → (turnOffLight w lightId s).1 = .returned ()))
    ∧ ((∃ l ∈ lights, l.id.strictEq lightId = true) →
        (effects s (turnOnLight w lightId s).2).filter Effect.isSetLightState
            = [.setLightState api lightId ⟨true, some 100⟩]
        ∧ (effects s (turnOffLight w lightId s).2).filter Effect.isSetLightState
            = [.setLightState api lightId ⟨false, none⟩])
    ∧ (lightId = .nan → ∀ l ∈ lights, l.id.strictEq lightId = false) := by
  obtain ⟨d, hd, hd0⟩ := connectToBridge_returned_trace hconn
  have hf0 : d.filter Effect.isSetLightState = [] := by
    rw [List.filter_eq_nil_iff]
    intro e he hp
    have := List.countP_pos_iff.2 ⟨e, he, hp⟩
    omega
  refine ⟨?_, ?_, ?_⟩
  · intro hno
    have hfind : lights.find? (fun l => l.id.strictEq lightId) = none := by
      rw [List.find?_eq_none]
      intro l hl
      simp [hno l hl]
    have hon : turnOnLight w lightId s = waitForKeyPress
        (emit (.consoleError ("Invalid light ID: " ++ lightId.toStr))
          (emit (.getAll api) s1)) := by
      simp only [turnOnLight, hconn, hlist, hfind]
    have hoff : turnOffLight w lightId s = waitForKeyPress
        (emit (.consoleError ("Invalid light ID: " ++ lightId.toStr))
          (emit (.getAll api) s1)) := by
      simp only [turnOffLight, hconn, hlist, hfind]
    have heff : effects s (waitForKeyPress
        (emit (.consoleError ("Invalid light ID: " ++ lightId.toStr))
          (emit (.getAll api) s1))).2
        = d ++ [.getAll api, .consoleError ("Invalid light ID: " ++ lightId.toStr),
            .question pressAnyKey] :=
      effects_of_trace (by rw [waitForKeyPress_trace]; simp [hd])
    rw [hon, hoff, heff]
    exact ⟨by simp, by simp [hd0, Effect.isSetLightState],
      fun h => waitForKeyPress_returned (by simpa using h),
      by simp, by simp [hd0, Effect.isSetLightState],
      fun h => waitForKeyPress_returned (by simpa using h)⟩
  · intro hex
    obtain ⟨found, hfind⟩ : ∃ found, lights.find? (fun l => l.id.strictEq lightId)
        = some found := by
      rw [← Option.isSome_iff_exists, List.find?_isSome]
      obtain ⟨l, hl, hp⟩ := hex
      exact ⟨l, hl, hp⟩
    constructor
    · rcases hS : w.setLightState (emit (.getAll api) s1).trace api lightId
          ⟨true, some 100⟩ with e | x
      · have hon : turnOnLight w lightId s = (.threw e,
            emit (.setLightState api lightId ⟨true, some 100⟩) (emit (.getAll api) s1)) := by
          simp only [turnOnLight, hconn, hlist, hfind, hS]
        rw [hon, effects_of_trace (d := d ++ [.getAll api,
          .setLightState api lightId ⟨true, some 100⟩]) (by simp [hd])]
        simp [hf0, Effect.isSetLightState]
      · have hon : turnOnLight w lightId s = waitForKeyPress
            (emit (.consoleLog ("Light " ++ lightId.toStr ++ " turned on"))
              (emit (.setLightState api lightId ⟨true, some 100⟩)
                (emit (.getAll api) s1))) := by
          simp only [turnOnLight, hconn, hlist, hfind, hS]
        rw [hon, effects_of_trace (d := d ++ [.getAll api,
          .setLightState api lightId ⟨true, some 100⟩,
          .consoleLog ("Light " ++ lightId.toStr ++ " turned on"), .question pressAnyKey])
          (by rw [waitForKeyPress_trace]; simp [hd])]
        simp [hf0, Effect.isSetLightState]
    · rcases hS : w.setLightState (emit (.getAll api) s1).trace api lightId
          ⟨false, none⟩ with e | x
      · have hoff : turnOffLight w lightId s = (.threw e,
            emit (.setLightState api lightId ⟨false, none⟩) (emit (.getAll api) s1)) := by
          simp only [turnOffLight, hconn, hlist, hfind, hS]
        rw [hoff, effects_of_trace (d := d ++ [.getAll api,
          .setLightState api lightId ⟨false, none⟩]) (by simp [hd])]
        simp [hf0, Effect.isSetLightState]
      · have hoff : turnOffLight w lightId s = waitForKeyPress
            (emit (.consoleLog ("Light " ++ lightId.toStr ++ " turned off"))
              (emit (.setLightState api lightId ⟨false, none⟩)
                (emit (.getAll api) s1))) := by
          simp only [turnOffLight, hconn, hlist, hfind, hS]
        rw [hoff, effects_of_trace (d := d ++ [.getAll api,
          .setLightState api lightId ⟨false, none⟩,
          .consoleLog ("Light " ++ lightId.toStr ++ " turned off"), .question pressAnyKey])
          (by rw [waitForKeyPress_trace]; simp [hd])]
        simp [hf0, Effect.isSetLightState]
  · intro hnan l _
    subst hnan
    cases l.id <;> rfl

theorem turnOnOff_checks_light_id_witness :
    connectToBridge homeWorld (storedState "stored-user" ["x"])
        = (.returned ⟨"192.168.1.2", some "stored-user"⟩,
            emit (.connect "192.168.1.2" (some "stored-user")) (storedState "stored-user" ["x"]))
    ∧ homeWorld.getAll
        (emit (.connect "192.168.1.2" (some "stored-user"))
          (storedState "stored-user" ["x"])).trace ⟨"192.168.1.2", some "stored-user"⟩
        = .ok [⟨.int 1, "Desk", true, some 8000⟩]
    ∧ Effect.consoleError "Invalid light ID: NaN"
        ∈ effects (storedState "stored-user" ["x"])
            (turnOnLight homeWorld .nan (storedState "stored-user" ["x"])).2
    ∧ (effects (storedState "stored-user" ["x"])
        (turnOnLight homeWorld .nan (storedState "stored-user" ["x"])).2).countP
          Effect.isSetLightState = 0
    ∧ (effects (storedState "stored-user" ["x"])
        (turnOffLight homeWorld (.int 1) (storedState "stored-user" ["x"])).2).filter
          Effect.isSetLightState
        = [.setLightState ⟨"192.168.1.2", some "stored-user"⟩ (.int 1) ⟨false, none⟩] :=
  ⟨rfl, rfl,
    ((turnOnOff_checks_light_id homeWorld (storedState "stored-user" ["x"])
      (emit (.connect "192.168.1.2" (some "stored-user")) (storedState "stored-user" ["x"]))
      ⟨"192.168.1.2", some "stored-user"⟩ [⟨.int 1, "Desk", true, some 8000⟩] .nan rfl rfl).1
      (by decide)).1,
    ((turnOnOff_checks_light_id homeWorld (storedState "stored-user" ["x"])
      (emit (.connect "192.168.1.2" (some "stored-user")) (storedState "stored-user" ["x"]))
      ⟨"192.168.1.2", some "stored-user"⟩ [⟨.int 1, "Desk", true, some 8000⟩] .nan rfl rfl).1
      (by decide)).2.1,
    ((turnOnOff_checks_light_id homeWorld (storedState "stored-user" ["x"])
      (emit (.connect "192.168.1.2" (some "stored-user")) (storedState "stored-user" ["x"]))
      ⟨"192.168.1.2", some "stored-user"⟩ [⟨.int 1, "Desk", true, some 8000⟩] (.int 1)
      rfl rfl).2.1 (by decide)).2⟩

/-- C9 fails on the code for the commands '2' and '3'.  With no bridge to be found, the
command '2' followed by the light id '1' makes `turnOnLight` throw inside the second
`rl.question` callback, which runs outside the `try` of the menu: the rejection is
unhandled, no `Unexpected error` message is written, `Command » ` has been asked once
and is never asked again, and the lines still typed are never read.  The command '3'
does the same.  The command '1', in the same world, is caught as the claim says: the
message is written and the menu asks again, until the exit command closes it. -/
theorem askQuestion_turn_on_error_not_caught :
    (askQuestion deadWorld 4 (freshState ["2", "1", "", "4"])).1
        = .unhandledRejection (.plain "Could not find a Hue Bridge")
    ∧ (askQuestion deadWorld 4 (freshState ["2", "1", "", "4"])).2.trace.count
        (.question "Command » ") = 1
    ∧ (¬ ∃ e ∈ (askQuestion deadWorld 4 (freshState ["2", "1", "", "4"])).2.trace,
        e.mentions "Unexpected error" = true)
    ∧ (askQuestion deadWorld 4 (freshState ["2", "1", "", "4"])).2.stdin = ["", "4"]
    ∧ (askQuestion deadWorld 4 (freshState ["3", "1", "", "4"])).1
        = .unhandledRejection (.plain "Could not find a Hue Bridge")
    ∧ (askQuestion deadWorld 4 (freshState ["1", "", "4"])).1 = .closed
    ∧ Effect.consoleError "Unexpected error: Could not find a Hue Bridge"
        ∈ (askQuestion deadWorld 4 (freshState ["1", "", "4"])).2.trace
    ∧ (askQuestion deadWorld 4 (freshState ["1", "", "4"])).2.trace.count
        (.question "Command » ") = 2 := by
  refine ⟨rfl, ?_, ?_, rfl, rfl, rfl, ?_, ?_⟩ <;> decide

/-- C10 fails as stated.  With no fixed address and no stored credential, discovery is
queried twice in one invocation, once by `connectToBridge` and once by `createUser`;
when the two answers list a different bridge first, the registration request goes to
10.0.0.9 and the connection opened with the credential it issued goes to 10.0.0.5, so
no single address receives every call. -/
theorem connectToBridge_locates_twice :
    (effects (freshState []) (connectToBridge twoBridgeWorld (freshState [])).2).count
        .nupnpSearch = 2
    ∧ Effect.usersCreateUser ⟨"10.0.0.9", none⟩ appName deviceName
        ∈ effects (freshState []) (connectToBridge twoBridgeWorld (freshState [])).2
    ∧ Effect.connect "10.0.0.5" (some "new-user")
        ∈ effects (freshState []) (connectToBridge twoBridgeWorld (freshState [])).2
    ∧ (¬ ∃ ip, ∀ e ∈ effects (freshState []) (connectToBridge twoBridgeWorld (freshState [])).2,
        ∀ a, e.address = some a → a = ip)
    ∧ (effects (freshState ["x"]) (connectToBridge linkWorld (freshState ["x"])).2).count
        .nupnpSearch = 2 := by
  refine ⟨by decide, by decide, by decide, ?_, by decide⟩
  rintro ⟨ip, h⟩
  have h1 := h (.usersCreateUser ⟨"10.0.0.9", none⟩ appName deviceName) (by decide)
    "10.0.0.9" rfl
  have h2 := h (.connect "10.0.0.5" (some "new-user")) (by decide) "10.0.0.5" rfl
  exact absurd (h1.trans h2.symm) (by decide)

/-- C10, as the code has it.  In one invocation of `connectToBridge` every connection
opened with a credential (the reuse attempt and the connection opened with the newly
issued credential) goes to the address located by `connectToBridge`; discovery is
queried at most twice, `createUser` locating the bridge again for its registration
request; and when a fixed address is configured (a non-empty `BRIDGE_IP`) discovery is
never queried and every call to a bridge, the registration request included, goes to
that address. -/
theorem connectToBridge_addressing (w : World) (s : State) :
    (effects s (connectToBridge w s).2).count .nupnpSearch ≤ 2
    ∧ (∀ v s1 ip, locateBridge w s = (.returned v, s1) → truthyStr v = some ip →
        ∀ a u, Effect.connect a (some u) ∈ effects s (connectToBridge w s).2 → a = ip)
    ∧ (∀ ip, w.BRIDGE_IP = some ip → ip ≠ "" →
        (effects s (connectToBridge w s).2).count .nupnpSearch = 0
        ∧ ∀ e ∈ effects s (connectToBridge w s).2, ∀ a, e.address = some a → a = ip) := by
  obtain ⟨d, hd, -, -, -, -, h5, hfix, hloc, -⟩ := connectToBridge_run w s
  rw [effects_of_trace hd]
  refine ⟨h5, hloc, ?_⟩
  intro ip hcfg hne
  exact hfix ip (by simp [truthyStr, hcfg, hne])

theorem connectToBridge_addressing_witness :
    locateBridge twoBridgeWorld (freshState [])
        = (.returned (some "10.0.0.5"), emit .nupnpSearch (freshState []))
    ∧ truthyStr (some "10.0.0.5") = some "10.0.0.5"
    ∧ Effect.connect "10.0.0.5" (some "new-user")
        ∈ effects (freshState []) (connectToBridge twoBridgeWorld (freshState [])).2
    ∧ "10.0.0.5" = "10.0.0.5"
    ∧ homeWorld.BRIDGE_IP = some "192.168.1.2" ∧ "192.168.1.2" ≠ ""
    ∧ (effects (storedState "stale-user" [])
        (connectToBridge homeWorld (storedState "stale-user" [])).2).count .nupnpSearch = 0 :=
  ⟨rfl, rfl, by decide,
    (connectToBridge_addressing twoBridgeWorld (freshState [])).2.1 (some "10.0.0.5")
      (emit .nupnpSearch (freshState [])) "10.0.0.5" rfl rfl "10.0.0.5" "new-user" (by decide),
    rfl, by decide,
    ((connectToBridge_addressing homeWorld (storedState "stale-user" [])).2.2 "192.168.1.2"
      rfl (by decide)).1⟩

end HueLights
